import Mathlib

/-!
Verification of the transfer precheck and execution pipeline of the
pruv-bridge-example repository (`BridgeService`, `TokenRouterService`,
`ERC20Service`, `ConfigUtil`, and the low-level contract callers).

The TypeScript sources are shallowly embedded:
* pure helpers become Lean functions;
* every on-chain interaction goes through an oracle environment `Env`
  (the external RPC node / ethers library), and computations run in a
  monad `M` that both returns an `Except String` result (JS exceptions
  carry their `message` string) and records the list of external
  contract interactions performed (`Event` trace);
* JS numbers from `parseFloat` are modelled exactly by `JSNum`
  (NaN / signed infinity / exact rational, ignoring double rounding,
  which is irrelevant for the amounts exercised here);
* the ethers helpers `parseUnits` / `formatUnits` / `BigInt(...)` are
  modelled after their (v6) string grammar and formatting behaviour.
-/

deriving instance DecidableEq for Except

namespace Bridge

/-- Decimal digit accumulator for a list of digit characters. -/
def digitsVal (l : List Char) : Nat :=
  l.foldl (fun acc c => acc * 10 + (c.toNat - 48)) 0

/-- Modelled from the spec: the two-variant amount unit enum of
`src/util/Unit.ts` (file not present under `src/`; `ETH` is the
human-readable unit, `WEI` the base-unit representation, exactly as the
services that consume it require). -/
inductive Unit where
  | ETH
  | WEI
deriving DecidableEq, Repr

/-- Monomorphic unit type for embedded `void` returns (the name `Unit`
is taken by the amount-unit enum above). -/
abbrev VUnit : Type := PUnit

/-- A JavaScript number as produced by `parseFloat`: NaN, a signed
infinity, or an exact finite value. -/
inductive JSNum where
  | nan
  | inf (neg : Bool)
  | num (q : ℚ)
deriving DecidableEq

/-- `isNaN` on a JS number. -/
def JSNum.isNaN : JSNum → Bool
  | .nan => true
  | _ => false

/-- Finiteness of a JS number. -/
def JSNum.isFinite : JSNum → Bool
  | .num _ => true
  | _ => false

/-- JS `<=` comparison (false whenever either side is NaN). -/
def JSNum.le : JSNum → JSNum → Bool
  | .nan, _ => false
  | _, .nan => false
  | .inf true, _ => true
  | _, .inf true => false
  | _, .inf false => true
  | .inf false, _ => false
  | .num a, .num b => decide (a ≤ b)

/-- JS `<` comparison (false whenever either side is NaN). -/
def JSNum.lt : JSNum → JSNum → Bool
  | .nan, _ => false
  | _, .nan => false
  | .inf true, .inf true => false
  | .inf true, _ => true
  | _, .inf true => false
  | .inf false, _ => false
  | .num _, .inf false => true
  | .num a, .num b => decide (a < b)

/-- Exponent suffix of a JS decimal literal: consumed only when at least
one exponent digit follows the `e`/`E` marker. -/
def parseFloatExp (l : List Char) : Int :=
  match l with
  | c :: rest =>
    if c = 'e' ∨ c = 'E' then
      let esign : Bool × List Char :=
        match rest with
        | '-' :: rr => (true, rr)
        | '+' :: rr => (false, rr)
        | _ => (false, rest)
      let eDigits := esign.2.takeWhile Char.isDigit
      if eDigits = [] then 0
      else if esign.1 then -(digitsVal eDigits : Int) else (digitsVal eDigits : Int)
    else 0
  | [] => 0

/-- Model of JavaScript `parseFloat`: skip leading whitespace, optional
sign, `Infinity` literal or the longest decimal-literal prefix
(`digits [. digits] [exponent]`); NaN when no numeric prefix exists.
Values are kept as exact rationals. -/
def parseFloat (s : String) : JSNum :=
  let l := s.data.dropWhile Char.isWhitespace
  let signSplit : Bool × List Char :=
    match l with
    | '-' :: rest => (true, rest)
    | '+' :: rest => (false, rest)
    | _ => (false, l)
  let neg := signSplit.1
  let l1 := signSplit.2
  if l1.take 8 = [ 'I', 'n', 'f', 'i', 'n', 'i', 't', 'y' ] then JSNum.inf neg
  else
    let intPart := l1.takeWhile Char.isDigit
    let r1 := l1.drop intPart.length
    let fracSplit : List Char × List Char :=
      match r1 with
      | '.' :: rest => (rest.takeWhile Char.isDigit, rest.drop (rest.takeWhile Char.isDigit).length)
      | _ => ([], r1)
    let fracPart := fracSplit.1
    if intPart = [] ∧ fracPart = [] then JSNum.nan
    else
      let mant := digitsVal (intPart ++ fracPart)
      let e := parseFloatExp fracSplit.2 - (fracPart.length : Int)
      let q : ℚ :=
        if 0 ≤ e then mkRat ((mant * 10 ^ e.toNat : Nat) : Int) 1
        else mkRat (mant : Int) (10 ^ (-e).toNat)
      JSNum.num (if neg then -q else q)

/-- Second half of `parseUnits`: digits collected, scale and sign. -/
def parseUnitsMk (neg : Bool) (whole frac : List Char) (decimals : Nat) : Except String Int :=
  if whole.length + frac.length = 0 then
    Except.error "invalid FixedNumber string value"
  else if decimals < frac.length then
    Except.error "too many decimals"
  else
    let n : Nat := digitsVal whole * 10 ^ decimals + digitsVal frac * 10 ^ (decimals - frac.length)
    Except.ok (if neg then -(n : Int) else (n : Int))

/-- Model of ethers `parseUnits(value, decimals)`: the whole string must
match `-? digits (. digits)?` with at least one digit, the fractional
part must not exceed `decimals`, and the result is the exactly scaled
integer. -/
def parseUnits (value : String) (decimals : Nat) : Except String Int :=
  let l := value.data
  let signSplit : Bool × List Char :=
    match l with
    | '-' :: rest => (true, rest)
    | _ => (false, l)
  let whole := signSplit.2.takeWhile Char.isDigit
  let r1 := signSplit.2.drop whole.length
  match r1 with
  | [] => parseUnitsMk signSplit.1 whole [] decimals
  | '.' :: rest =>
    let frac := rest.takeWhile Char.isDigit
    if rest.drop frac.length ≠ [] then Except.error "invalid FixedNumber string value"
    else parseUnitsMk signSplit.1 whole frac decimals
  | _ => Except.error "invalid FixedNumber string value"

/-- Trailing-zero trimming of a fractional digit string, keeping at
least one digit (ethers formatting always keeps `.0`). -/
def trimTrailZeros (l : List Char) : List Char :=
  let r := (l.reverse.dropWhile (fun c => c = '0')).reverse
  if r = [] then [ '0' ] else r

/-- Model of ethers `formatUnits(value, decimals)`: decimal string with
the fractional part trailing-zero-trimmed but never empty. -/
def formatUnits (value : Int) (decimals : Nat) : String :=
  let sign := if value < 0 then "-" else ""
  let a := value.natAbs
  let wholeStr := Nat.repr (a / 10 ^ decimals)
  if decimals = 0 then sign ++ wholeStr
  else
    let fracDigits := (Nat.repr (a % 10 ^ decimals)).data
    let fracPadded := List.replicate (decimals - fracDigits.length) '0' ++ fracDigits
    sign ++ wholeStr ++ "." ++ String.mk (trimTrailZeros fracPadded)

/-- Model of JS `BigInt(string)`: trimmed empty string is zero, a signed
decimal digit string is its value, anything else throws.  (The hex /
octal / binary prefixes accepted by JS never occur in this codebase.) -/
def jsBigInt (s : String) : Except String Int :=
  let l := ((s.data.dropWhile Char.isWhitespace).reverse.dropWhile Char.isWhitespace).reverse
  match l with
  | [] => Except.ok 0
  | _ =>
    let signSplit : Bool × List Char :=
      match l with
      | '-' :: rest => (true, rest)
      | '+' :: rest => (false, rest)
      | _ => (false, l)
    if signSplit.2 ≠ [] ∧ signSplit.2.all Char.isDigit then
      Except.ok (if signSplit.1 then -(digitsVal signSplit.2 : Int) else (digitsVal signSplit.2 : Int))
    else Except.error ("Cannot convert " ++ s ++ " to a BigInt")

/-- ASCII lower-casing, modelling JS `toLowerCase` on hex addresses. -/
def toLowerStr (s : String) : String := String.mk (s.data.map Char.toLower)

/-- JS `String.prototype.startsWith`, over the character list. -/
def strStartsWith (s pre : String) : Bool := s.data.take pre.data.length == pre.data

/-- Model of ethers `zeroPadValue(value, width)` for `0x`-prefixed hex
data: left-pad the hex digits with zeros to `width` bytes. -/
def zeroPadValue (v : String) (width : Nat) : String :=
  let hexDigits := if strStartsWith v "0x" then v.data.drop 2 else v.data
  "0x" ++ String.mk (List.replicate (2 * width - hexDigits.length) '0' ++ hexDigits)

/-- ethers `ZeroAddress`. -/
def ZeroAddress : String := "0x0000000000000000000000000000000000000000"

/-- One chain entry of `conifg/chain_config.json` (`rpc_urls` entries may
be null, modelled by `Option`; `mailbox` is the optional
`core_addresses.mailbox`). -/
structure ChainInfo where
  chain_id : Int
  rpc_urls : List (Option String)
  mailbox : Option String
deriving DecidableEq

/-- One (asset, chain) entry of `conifg/assets_config.json`. -/
structure AssetChainInfo where
  router_address : String
  collateral_address : String
deriving DecidableEq

/-- The static configuration tables read at startup. -/
structure Config where
  chains : List (String × ChainInfo)
  assets : List (String × List (String × AssetChainInfo))
deriving DecidableEq

namespace ConfigUtil

/-- `ConfigUtil.getRpcUrl` (src/util/ConfigUtil.ts): first configured
RPC endpoint, failing on a missing chain, empty list or falsy entry. -/
def getRpcUrl (cfg : Config) (chainName : String) : Except String String :=
  match cfg.chains.lookup chainName with
  | none => Except.error ("Chain '" ++ chainName ++ "' not found in configuration")
  | some chainInfo =>
    match chainInfo.rpc_urls.head? with
    | none => Except.error ("No RPC URLs found for chain '" ++ chainName ++ "'")
    | some none => Except.error ("Invalid RPC URL for chain '" ++ chainName ++ "'")
    | some (some "") => Except.error ("Invalid RPC URL for chain '" ++ chainName ++ "'")
    | some (some rpcUrl) => Except.ok rpcUrl

/-- `ConfigUtil.getDomainId`. -/
def getDomainId (cfg : Config) (chainName : String) : Except String Int :=
  match cfg.chains.lookup chainName with
  | none => Except.error ("Chain '" ++ chainName ++ "' not found in configuration")
  | some chainInfo => Except.ok chainInfo.chain_id

/-- `ConfigUtil.getRouterAddress`. -/
def getRouterAddress (cfg : Config) (assetName chainName : String) : Except String String :=
  match cfg.assets.lookup assetName with
  | none => Except.error ("Asset '" ++ assetName ++ "' not found in configuration")
  | some assetInfo =>
    match assetInfo.lookup chainName with
    | none => Except.error ("Asset '" ++ assetName ++ "' not available on chain '" ++ chainName ++ "'")
    | some chainInfo => Except.ok chainInfo.router_address

/-- `ConfigUtil.getCollateralAddress`. -/
def getCollateralAddress (cfg : Config) (assetName chainName : String) : Except String String :=
  match cfg.assets.lookup assetName with
  | none => Except.error ("Asset '" ++ assetName ++ "' not found in configuration")
  | some assetInfo =>
    match assetInfo.lookup chainName with
    | none => Except.error ("Asset '" ++ assetName ++ "' not available on chain '" ++ chainName ++ "'")
    | some chainInfo => Except.ok chainInfo.collateral_address

/-- `ConfigUtil.getMailboxAddress` (falsy mailbox entry also fails). -/
def getMailboxAddress (cfg : Config) (chainName : String) : Except String String :=
  match cfg.chains.lookup chainName with
  | none => Except.error ("Chain '" ++ chainName ++ "' not found in configuration")
  | some chainInfo =>
    match chainInfo.mailbox with
    | none => Except.error ("Mailbox address not found for chain '" ++ chainName ++ "'")
    | some "" => Except.error ("Mailbox address not found for chain '" ++ chainName ++ "'")
    | some mailbox => Except.ok mailbox

end ConfigUtil

/-- One emitted log entry of a transaction receipt (an absent / empty
`address` field is modelled by the empty string). -/
structure Log where
  address : String
  topics : List String
deriving DecidableEq, Repr

/-- A transaction receipt, as consumed by the message-id extraction. -/
structure Receipt where
  logs : List Log
deriving DecidableEq, Repr

/-- Result of the low-level `transferRemote` contract call. -/
structure TxResult where
  transactionHash : String
  receipt : Receipt
deriving DecidableEq, Repr

/-- Result of `BridgeService.transferToken` / service `transferRemote`. -/
structure TransferOutcome where
  transactionHash : String
  messageId : String
deriving DecidableEq, Repr

/-- One external contract interaction, as recorded in the trace. -/
inductive Event where
  | decimalsCall (rpcUrl tokenAddr : String)
  | allowanceCall (rpcUrl tokenAddr owner spender : String)
  | approveTx (tokenAddr spender : String) (amountInWei : Int)
  | routersCall (rpcUrl routerAddr : String) (domainId : Int)
  | routerBalanceOfCall (rpcUrl routerAddr account : String)
  | quoteGasCall (rpcUrl routerAddr : String) (domainId : Int)
  | nativeBalanceCall (rpcUrl account : String)
  | transferRemoteTx (routerAddr : String) (domainId : Int) (recipient : String) (amountInWei msgValue : Int)
deriving DecidableEq, Repr

/-- State-changing interactions: `approve` and `transferRemote`
transactions; everything else is a read-only view call or balance
query. -/
def Event.isWrite : Event → Bool
  | .approveTx _ _ _ => true
  | .transferRemoteTx _ _ _ _ _ => true
  | _ => false

/-- Is this event a submitted `approve` transaction? -/
def Event.isApprove : Event → Bool
  | .approveTx _ _ _ => true
  | _ => false

/-- Is this event a `quoteGasPayment` view call? -/
def Event.isQuoteGas : Event → Bool
  | .quoteGasCall _ _ _ => true
  | _ => false

/-- Is this event a `decimals()` view call? -/
def Event.isDecimals : Event → Bool
  | .decimalsCall _ _ => true
  | _ => false

/-- A trace is write-free when it holds no state-changing call. -/
def writeFree (t : List Event) : Bool := t.all (fun ev => !ev.isWrite)

/-- Number of submitted `approve` transactions in a trace. -/
def approveCount (t : List Event) : Nat := t.countP (fun ev => ev.isApprove)

/-- Number of `quoteGasPayment` invocations in a trace. -/
def quoteGasCount (t : List Event) : Nat := t.countP (fun ev => ev.isQuoteGas)

/-- Number of `decimals()` lookups in a trace. -/
def decimalsCount (t : List Event) : Nat := t.countP (fun ev => ev.isDecimals)

/-- The oracle environment: the static configuration plus the responses
of the external world (the ethers library and the contracts reached over
RPC).  Each field gives the outcome of one kind of external call. -/
structure Env where
  config : Config
  /-- `ethers.isAddress` (pure library predicate). -/
  isAddress : String → Bool
  /-- `new ethers.Wallet(pk).address`; `Except.error` models a throwing
  constructor on an invalid private key. -/
  walletAddress : String → Except String String
  /-- ERC20 `decimals()` static call at (rpcUrl, tokenAddr). -/
  decimalsAt : String → String → Except String Nat
  /-- ERC20 `allowance(owner, spender)` static call. -/
  allowanceAt : String → String → String → String → Except String Int
  /-- ERC20 `approve(spender, amount)` transaction; returns the
  confirmed receipt hash. -/
  approveAt : String → String → Int → Except String String
  /-- Router `routers(domainId)` static call. -/
  routersAt : String → String → Int → Except String String
  /-- Router `balanceOf(account)` static call. -/
  routerBalanceAt : String → String → String → Except String Int
  /-- Router `quoteGasPayment(domainId)` static call. -/
  quoteGasAt : String → String → Int → Except String Int
  /-- `provider.getBalance(account)` native balance query. -/
  nativeBalanceAt : String → String → Except String Int
  /-- Router `transferRemote(...)` transaction (hash plus receipt). -/
  transferRemoteAt : String → Int → String → Int → Int → Except String TxResult

/-- The effect monad of the embedding: given the oracle environment, a
computation yields an `Except String` result (JS exceptions carry their
message) and the ordered trace of external contract interactions. -/
def M (α : Type) : Type := Env → Except String α × List Event

/-- Lift a successful value. -/
def M.pure (a : α) : M α := fun _ => (Except.ok a, [])

/-- Sequencing: traces concatenate; an error short-circuits. -/
def M.bind (x : M α) (f : α → M β) : M β := fun env =>
  match x env with
  | (Except.error e, t) => (Except.error e, t)
  | (Except.ok a, t) =>
    let r := f a env
    (r.1, t ++ r.2)

instance : Monad M where
  pure := M.pure
  bind := M.bind

/-- `throw new Error(msg)`. -/
def M.throw (msg : String) : M α := fun _ => (Except.error msg, [])

/-- JS `try { x } catch (e) { h(e.message) }`: interactions performed
before the failure stay in the trace. -/
def M.tryCatch (x : M α) (h : String → M α) : M α := fun env =>
  match x env with
  | (Except.ok a, t) => (Except.ok a, t)
  | (Except.error e, t) =>
    let r := h e env
    (r.1, t ++ r.2)

/-- Lift an effect-free `Except` computation (pure JS code that may
throw). -/
def M.liftE (x : Except String α) : M α := fun _ => (x, [])

/-- Run a pure function of the static configuration. -/
def M.cfg (f : Config → Except String α) : M α := fun env => (f env.config, [])

/-- `ethers.isAddress` (no external interaction). -/
def M.isAddr (s : String) : M Bool := fun env => (Except.ok (env.isAddress s), [])

/-- Wallet construction from a private key (no external interaction). -/
def M.wallet (pk : String) : M String := fun env => (env.walletAddress pk, [])

/-- Perform one external contract interaction: the event is recorded
whether or not the call succeeds. -/
def M.oracle (ev : Event) (f : Env → Except String α) : M α := fun env => (f env, [ev])

namespace ERC20Caller

/-- `ERC20Caller.getDecimals` (embedded in
src/caller/smart_contract_caller/TokenRouterCaller.ts): raw `decimals()`
static call, failures wrapped with an operation prefix. -/
def getDecimals (rpcUrl tokenContractAddress : String) : M Nat :=
  M.tryCatch
    (M.oracle (Event.decimalsCall rpcUrl tokenContractAddress)
      (fun env => env.decimalsAt rpcUrl tokenContractAddress))
    (fun e => M.throw ("Failed to get token decimals: " ++ e))

/-- `ERC20Caller.getAllowance`: raw `allowance(owner, spender)` static
call returning the base-unit amount. -/
def getAllowance (rpcUrl tokenContractAddress ownerAddress spenderAddress : String) : M Int :=
  M.tryCatch
    (M.oracle (Event.allowanceCall rpcUrl tokenContractAddress ownerAddress spenderAddress)
      (fun env => env.allowanceAt rpcUrl tokenContractAddress ownerAddress spenderAddress))
    (fun e => M.throw ("Failed to get token allowance: " ++ e))

/-- `ERC20Caller.approve`: submits the `approve(spender, amount)`
transaction, waits for confirmation and returns the receipt hash. -/
def approve (tokenContractAddress spenderAddress : String) (amountInWei : Int) : M String :=
  M.tryCatch
    (M.oracle (Event.approveTx tokenContractAddress spenderAddress amountInWei)
      (fun env => env.approveAt tokenContractAddress spenderAddress amountInWei))
    (fun e => M.throw ("Failed to approve token: " ++ e))

end ERC20Caller

namespace TokenRouterCaller

/-- `TokenRouterCaller.quoteGasPayment`: raw `quoteGasPayment(domainId)`
static call. -/
def quoteGasPayment (rpcUrl routerContractAddress : String) (destinationDomainId : Int) : M Int :=
  M.tryCatch
    (M.oracle (Event.quoteGasCall rpcUrl routerContractAddress destinationDomainId)
      (fun env => env.quoteGasAt rpcUrl routerContractAddress destinationDomainId))
    (fun e => M.throw ("Failed to quote gas payment: " ++ e))

/-- `TokenRouterCaller.getRouters`: raw `routers(domainId)` static call. -/
def getRouters (rpcUrl routerContractAddress : String) (domainId : Int) : M String :=
  M.tryCatch
    (M.oracle (Event.routersCall rpcUrl routerContractAddress domainId)
      (fun env => env.routersAt rpcUrl routerContractAddress domainId))
    (fun e => M.throw ("Failed to get router address: " ++ e))

/-- `TokenRouterCaller.getBalanceOf`: raw `balanceOf(account)` static
call. -/
def getBalanceOf (rpcUrl routerContractAddress account : String) : M Int :=
  M.tryCatch
    (M.oracle (Event.routerBalanceOfCall rpcUrl routerContractAddress account)
      (fun env => env.routerBalanceAt rpcUrl routerContractAddress account))
    (fun e => M.throw ("Failed to get balance: " ++ e))

/-- `TokenRouterCaller.transferRemote`: submits the remote transfer with
the quoted fee attached as native value and waits for confirmation. -/
def transferRemote (routerContractAddress : String) (destinationDomainId : Int)
    (recipient : String) (amount value : Int) : M TxResult :=
  M.tryCatch
    (M.oracle (Event.transferRemoteTx routerContractAddress destinationDomainId recipient amount value)
      (fun env => env.transferRemoteAt routerContractAddress destinationDomainId recipient amount value))
    (fun e => M.throw ("Failed to transfer tokens: " ++ e))

end TokenRouterCaller

/-- JS `string | bigint`, the dynamic argument type of
`ERC20Service.convertAmount`. -/
inductive StrOrInt where
  | str (s : String)
  | int (i : Int)
deriving DecidableEq, Repr

/-- JS `.toString()` on a `string | bigint` value. -/
def StrOrInt.toStr : StrOrInt → String
  | .str s => s
  | .int i => toString i

namespace ERC20Service

/-- `ERC20Service.getDecimals`
(src/services/smart_contract_services/ERC20Service.ts): configuration is
resolved outside the try block (raw errors), the caller failure is
wrapped once more by `handleError`. -/
def getDecimals (tokenSymbol chainName : String) : M Nat := do
  let rpcUrl ← M.cfg (fun c => ConfigUtil.getRpcUrl c chainName)
  let tokenContractAddress ← M.cfg (fun c => ConfigUtil.getCollateralAddress c tokenSymbol chainName)
  M.tryCatch (ERC20Caller.getDecimals rpcUrl tokenContractAddress)
    (fun e => M.throw ("Failed to get token decimals: " ++ e))

/-- `ERC20Service.convertAmount`: unit conversion of a `string | bigint`
amount; decimals are fetched only when input and output units differ. -/
def convertAmount (tokenSymbol chainName : String) (amount : StrOrInt)
    (inputUnit outputUnit : Unit) : M StrOrInt :=
  if inputUnit = outputUnit then
    if outputUnit = Unit.WEI then
      match amount with
      | .str s => do
        let i ← M.liftE (jsBigInt s)
        M.pure (StrOrInt.int i)
      | .int i => M.pure (StrOrInt.str (toString i))
    else M.pure (StrOrInt.str amount.toStr)
  else do
    let decimals ← getDecimals tokenSymbol chainName
    if inputUnit = Unit.ETH ∧ outputUnit = Unit.WEI then
      match amount with
      | .str s => do
        let i ← M.liftE (parseUnits s decimals)
        M.pure (StrOrInt.int i)
      | .int _ => M.throw "value must be a string"
    else if inputUnit = Unit.WEI ∧ outputUnit = Unit.ETH then
      match amount with
      | .int i => M.pure (StrOrInt.str (formatUnits i decimals))
      | .str _ => M.throw "invalid BigNumberish value"
    else M.throw "Unsupported unit conversion"

/-- Extract the `bigint` arm of a converted amount (`as bigint` cast in
the source: a string here would be rejected by the subsequent ethers
call). -/
def StrOrIntAsInt : StrOrInt → M Int
  | .int i => M.pure i
  | .str _ => M.throw "invalid BigNumberish value"

/-- `ERC20Service.getAllowance`: read the allowance in base units, then
convert to the requested display unit. -/
def getAllowance (tokenSymbol chainName ownerAddress spenderAddress : String)
    (unit : Unit) : M String := do
  let rpcUrl ← M.cfg (fun c => ConfigUtil.getRpcUrl c chainName)
  let tokenContractAddress ← M.cfg (fun c => ConfigUtil.getCollateralAddress c tokenSymbol chainName)
  M.tryCatch
    (do
      let allowance ← ERC20Caller.getAllowance rpcUrl tokenContractAddress ownerAddress spenderAddress
      let convertedAmount ← convertAmount tokenSymbol chainName (StrOrInt.int allowance) Unit.WEI unit
      M.pure convertedAmount.toStr)
    (fun e => M.throw ("Failed to get token allowance: " ++ e))

/-- `ERC20Service.approve`: convert the requested amount to base units,
create the signer, and submit the approval through the caller. -/
def approve (tokenSymbol chainName spenderAddress amount : String)
    (unit : Unit) (privateKey : String) : M String := do
  let rpcUrl ← M.cfg (fun c => ConfigUtil.getRpcUrl c chainName)
  let tokenContractAddress ← M.cfg (fun c => ConfigUtil.getCollateralAddress c tokenSymbol chainName)
  let _ := rpcUrl
  M.tryCatch
    (do
      let converted ← convertAmount tokenSymbol chainName (StrOrInt.str amount) unit Unit.WEI
      let finalAmount ← StrOrIntAsInt converted
      let _ ← M.wallet privateKey
      ERC20Caller.approve tokenContractAddress spenderAddress finalAmount)
    (fun e => M.throw ("Failed to approve token: " ++ e))

end ERC20Service

namespace TokenRouterService

/-- The filter predicate of `TokenRouterService.getMessageId`: a truthy
emitting address equal (case-insensitively) to the mailbox address, and
exactly two topics. -/
def mailboxLogTest (mailboxAddress : String) (log : Log) : Bool :=
  log.address != "" && toLowerStr log.address == toLowerStr mailboxAddress
    && log.topics.length == 2

/-- `TokenRouterService.getMessageId`
(src/services/smart_contract_services/TokenRouterService.ts): first
matching mailbox log's second topic, else the fixed extraction error. -/
def getMessageId (receipt : Receipt) (mailboxAddress : String) : Except String String :=
  if receipt.logs.length > 0 then
    match (receipt.logs.filter (mailboxLogTest mailboxAddress)).head? with
    | some log => Except.ok (log.topics.getD 1 "")
    | none => Except.error "Message ID not found in receipt. This indicates an invalid mailbox address in the configuration."
  else Except.error "Message ID not found in receipt. This indicates an invalid mailbox address in the configuration."

/-- `TokenRouterService.quoteGasPayment`: configuration resolution and
the raw call, all failures wrapped with the service prefix. -/
def quoteGasPayment (tokenSymbol sourceChainName destinationChainName : String) : M String :=
  M.tryCatch
    (do
      let rpcUrl ← M.cfg (fun c => ConfigUtil.getRpcUrl c sourceChainName)
      let routerContractAddress ← M.cfg (fun c => ConfigUtil.getRouterAddress c tokenSymbol sourceChainName)
      let destinationDomainId ← M.cfg (fun c => ConfigUtil.getDomainId c destinationChainName)
      let gasPayment ← TokenRouterCaller.quoteGasPayment rpcUrl routerContractAddress destinationDomainId
      M.pure (toString gasPayment))
    (fun e => M.throw ("Failed to quote gas payment: " ++ e))

/-- `TokenRouterService.routers`: the router address registered on
`chainName` for `domainId`; any failure (including origin-side
configuration lookup) surfaces as a `Failed to get router address`
error. -/
def routers (tokenSymbol chainName : String) (domainId : Int) : M String :=
  M.tryCatch
    (do
      let rpcUrl ← M.cfg (fun c => ConfigUtil.getRpcUrl c chainName)
      let routerContractAddress ← M.cfg (fun c => ConfigUtil.getRouterAddress c tokenSymbol chainName)
      TokenRouterCaller.getRouters rpcUrl routerContractAddress domainId)
    (fun e => M.throw ("Failed to get router address: " ++ e))

/-- `TokenRouterService.balanceOf`: the router's bookkeeping balance of
`account`, rendered as a decimal string. -/
def balanceOf (tokenSymbol chainName account : String) : M String :=
  M.tryCatch
    (do
      let rpcUrl ← M.cfg (fun c => ConfigUtil.getRpcUrl c chainName)
      let routerContractAddress ← M.cfg (fun c => ConfigUtil.getRouterAddress c tokenSymbol chainName)
      let balance ← TokenRouterCaller.getBalanceOf rpcUrl routerContractAddress account
      M.pure (toString balance))
    (fun e => M.throw ("Failed to get balance: " ++ e))

/-- `TokenRouterService.transferRemote`: submit the remote transfer,
then best-effort message-id extraction — an extraction failure is caught
and yields an empty message id next to the successful hash. -/
def transferRemote (tokenSymbol sourceChainName destinationChainName recipient : String)
    (amount value : Int) (privateKey : String) : M TransferOutcome :=
  M.tryCatch
    (do
      let rpcUrl ← M.cfg (fun c => ConfigUtil.getRpcUrl c sourceChainName)
      let routerContractAddress ← M.cfg (fun c => ConfigUtil.getRouterAddress c tokenSymbol sourceChainName)
      let destinationDomainId ← M.cfg (fun c => ConfigUtil.getDomainId c destinationChainName)
      let _ := rpcUrl
      let _ ← M.wallet privateKey
      let result ← TokenRouterCaller.transferRemote routerContractAddress destinationDomainId recipient amount value
      M.tryCatch
        (do
          let mailboxAddress ← M.cfg (fun c => ConfigUtil.getMailboxAddress c sourceChainName)
          let messageId ← M.liftE (getMessageId result.receipt mailboxAddress)
          M.pure (TransferOutcome.mk result.transactionHash messageId))
        (fun _ => M.pure (TransferOutcome.mk result.transactionHash "")))
    (fun e => M.throw ("Failed to transfer tokens: " ++ e))

end TokenRouterService

namespace BridgeService

/-- `BridgeService.isNullish`: all precheck inputs are strings, so the
falsy cases collapse to the empty string. -/
def isNullish (value : String) : Bool := value == ""

/-- `BridgeService.validateRequiredParameters`: first nullish entry (in
insertion order) raises the field-specific error. -/
def validateRequiredParameters (params : List (String × String)) : Except String VUnit :=
  match params.find? (fun p => isNullish p.2) with
  | some p => Except.error (p.1 ++ " is required and cannot be empty")
  | none => Except.ok PUnit.unit

/-- `BridgeService.validatePositiveAmount`: `parseFloat`, rejecting NaN
and non-positive values. -/
def validatePositiveAmount (amount : String) : Except String VUnit :=
  let numericAmount := parseFloat amount
  if numericAmount.isNaN || JSNum.le numericAmount (JSNum.num 0) then
    Except.error "Amount must be a positive number"
  else Except.ok PUnit.unit

/-- The parameter record passed to `validateRequiredParameters` by both
precheck and transfer (field names fixed by the source). -/
def requiredParams (tokenSymbol originChain destinationChain receiverAddress
    senderAddressOrPrivateKey amount : String) : List (String × String) :=
  [ ("tokenSymbol", tokenSymbol), ("originChain", originChain),
    ("destinationChain", destinationChain), ("receiverAddress", receiverAddress),
    ("senderAddressOrPrivateKey", senderAddressOrPrivateKey), ("amount", amount) ]

/-- `BridgeService.validateInputParameters` (revision embedded in
src/services/BridgeService.spec.ts): required fields then amount
positivity. -/
def validateInputParameters (tokenSymbol originChain destinationChain receiverAddress
    amount senderAddressOrPrivateKey : String) : Except String VUnit := do
  let _ ← validateRequiredParameters
    (requiredParams tokenSymbol originChain destinationChain receiverAddress
      senderAddressOrPrivateKey amount)
  validatePositiveAmount amount

/-- `BridgeService.validateReceiverAddress`: ethers address validity
plus an explicit `0x` prefix. -/
def validateReceiverAddress (receiverAddress : String) : M VUnit := do
  let isA ← M.isAddr receiverAddress
  if !isA || !(strStartsWith receiverAddress "0x") then
    M.throw "Receiver address must be a valid Ethereum address"
  else M.pure PUnit.unit

/-- `BridgeService.validateAndResolveSenderAddress`: a valid address is
used directly, otherwise the address is derived from the private key,
any derivation failure reported uniformly. -/
def validateAndResolveSenderAddress (senderAddressOrPrivateKey : String) : M String := do
  let isA ← M.isAddr senderAddressOrPrivateKey
  if isA then M.pure senderAddressOrPrivateKey
  else
    M.tryCatch (M.wallet senderAddressOrPrivateKey)
      (fun _ => M.throw "Invalid sender address or private key")

/-- Body of `BridgeService.precheckTransferToken`
(src/services/BridgeService.ts, the try block): the eight ordered
precheck steps.  Note that the token decimals are fetched
unconditionally before the unit dispatch. -/
def precheckTransferTokenBody (tokenSymbol originChain destinationChain receiverAddress
    amount : String) (amountUnit : Unit) (senderAddressOrPrivateKey : String) : M Bool := do
  let _ ← M.liftE (validateRequiredParameters
    (requiredParams tokenSymbol originChain destinationChain receiverAddress
      senderAddressOrPrivateKey amount))
  let _ ← M.liftE (validatePositiveAmount amount)
  let _ ← (if originChain == destinationChain then
      (M.throw "Origin and destination chains must be different" : M VUnit)
    else M.pure PUnit.unit)
  let recvOk ← M.isAddr receiverAddress
  let _ ← (if !recvOk || !(strStartsWith receiverAddress "0x") then
      (M.throw "Receiver address must be a valid Ethereum address" : M VUnit)
    else M.pure PUnit.unit)
  let senderIsAddr ← M.isAddr senderAddressOrPrivateKey
  let senderAddress ← (if senderIsAddr then M.pure senderAddressOrPrivateKey
    else
      M.tryCatch (M.wallet senderAddressOrPrivateKey)
        (fun _ => M.throw "Invalid sender address or private key"))
  let destinationDomainId ← M.cfg (fun c => ConfigUtil.getDomainId c destinationChain)
  let destinationRouterAddress ← TokenRouterService.routers tokenSymbol originChain destinationDomainId
  let _ ← (if destinationRouterAddress == "" || destinationRouterAddress == ZeroAddress then
      (M.throw ("No router available for " ++ tokenSymbol ++ " on destination chain "
        ++ destinationChain ++ " (domain " ++ toString destinationDomainId ++ ")") : M VUnit)
    else M.pure PUnit.unit)
  let senderTokenBalance ← TokenRouterService.balanceOf tokenSymbol originChain senderAddress
  let tokenDecimals ← ERC20Service.getDecimals tokenSymbol originChain
  let amountInWei ← M.liftE (if amountUnit = Unit.ETH then parseUnits amount tokenDecimals
    else parseUnits amount 0)
  let stb ← M.liftE (jsBigInt senderTokenBalance)
  let _ ← (if stb < amountInWei then
      (M.throw ("Insufficient balance for " ++ tokenSymbol ++ ": sender has "
        ++ senderTokenBalance ++ " wei but trying to transfer "
        ++ toString amountInWei ++ " wei") : M VUnit)
    else M.pure PUnit.unit)
  let bridgeFee ← TokenRouterService.quoteGasPayment tokenSymbol originChain destinationChain
  let originRpcUrl ← M.cfg (fun c => ConfigUtil.getRpcUrl c originChain)
  let senderNativeBalance ← M.oracle (Event.nativeBalanceCall originRpcUrl senderAddress)
    (fun env => env.nativeBalanceAt originRpcUrl senderAddress)
  let fee ← M.liftE (jsBigInt bridgeFee)
  let _ ← (if senderNativeBalance < fee then
      (M.throw ("Insufficient native balance for gas payment: sender has "
        ++ formatUnits senderNativeBalance 18 ++ " ETH but needs "
        ++ formatUnits fee 18 ++ " ETH") : M VUnit)
    else M.pure PUnit.unit)
  M.pure true

/-- `BridgeService.precheckTransferToken`: the body wrapped by the
single catch that re-raises every failure under one uniform prefix. -/
def precheckTransferToken (tokenSymbol originChain destinationChain receiverAddress
    amount : String) (amountUnit : Unit) (senderAddressOrPrivateKey : String) : M Bool :=
  M.tryCatch
    (precheckTransferTokenBody tokenSymbol originChain destinationChain receiverAddress
      amount amountUnit senderAddressOrPrivateKey)
    (fun e => M.throw ("Transfer precheck failed: " ++ e))

/-- `BridgeService.convertTokenAmountToWei` (revision embedded in
src/services/BridgeService.spec.ts): for base units the amount is
parsed with zero decimals immediately; the on-chain decimals are fetched
only for the human-readable unit. -/
def convertTokenAmountToWei (tokenSymbol originChain amount : String)
    (amountUnit : Unit) : M Int :=
  if amountUnit = Unit.WEI then M.liftE (parseUnits amount 0)
  else do
    let tokenDecimals ← ERC20Service.getDecimals tokenSymbol originChain
    M.liftE (parseUnits amount tokenDecimals)

/-- `BridgeService.transferToken` (revision embedded in
src/services/BridgeService.spec.ts): validation, conversion,
allowance-gated approval, fee quote, and the remote transfer. -/
def transferToken (tokenSymbol originChain destinationChain receiverAddress
    amount : String) (amountUnit : Unit) (privateKey : String) : M TransferOutcome := do
  let _ ← M.liftE (validateInputParameters tokenSymbol originChain destinationChain
    receiverAddress amount privateKey)
  let _ ← validateReceiverAddress receiverAddress
  let senderAddress ← validateAndResolveSenderAddress privateKey
  let amountInWei ← convertTokenAmountToWei tokenSymbol originChain amount amountUnit
  let routerAddress ← M.cfg (fun c => ConfigUtil.getRouterAddress c tokenSymbol originChain)
  let currentAllowance ← ERC20Service.getAllowance tokenSymbol originChain senderAddress
    routerAddress amountUnit
  let currentAllowanceNum := parseFloat currentAllowance
  let transferAmountNum := parseFloat amount
  let _ ← ((if JSNum.le transferAmountNum currentAllowanceNum then M.pure PUnit.unit
    else do
      let _ ← ERC20Service.approve tokenSymbol originChain routerAddress amount amountUnit privateKey
      M.pure PUnit.unit) : M VUnit)
  let gasQuote ← TokenRouterService.quoteGasPayment tokenSymbol originChain destinationChain
  let recipientBytes32 := zeroPadValue receiverAddress 32
  let gq ← M.liftE (jsBigInt gasQuote)
  let result ← TokenRouterService.transferRemote tokenSymbol originChain destinationChain
    recipientBytes32 amountInWei gq privateKey
  M.pure (TransferOutcome.mk result.transactionHash result.messageId)

end BridgeService

/-- Spec-side description of post-transfer message-id extraction (§4.4
step 7 of the specification): find the first log entry whose emitting
address equals (case-insensitively) the chain's configured mailbox
address and which carries exactly two topics; its second topic is the
message id; an unconfigured mailbox or no matching entry yields the
empty id. -/
def messageIdSpec (cfg : Config) (chainName : String) (receipt : Receipt) : String :=
  match ConfigUtil.getMailboxAddress cfg chainName with
  | Except.error _ => ""
  | Except.ok mailbox =>
    match receipt.logs.find? (fun log =>
        toLowerStr log.address == toLowerStr mailbox && log.topics.length == 2) with
    | some log => log.topics.getD 1 ""
    | none => ""

/-! Concrete oracle environments used to exercise the pipelines. -/

/-- A configuration carrying two chains and the USDC asset on the origin
chain only. -/
def happyConfig : Config :=
  { chains :=
      [ ("sepolia",
          { chain_id := 11155111,
            rpc_urls := [ some "https://rpc.sepolia.example" ],
            mailbox := some "0xABCD000000000000000000000000000000000001" }),
        ("pruvtest",
          { chain_id := 7336,
            rpc_urls := [ some "https://rpc.pruv.example" ],
            mailbox := none }) ],
    assets :=
      [ ("USDC",
          [ ("sepolia",
              { router_address := "0xc97f971b0ddffC63e87365c2ce2F88107E79A167",
                collateral_address := "0xA0b86a33E6441c8C06DD2b7c94b7E0e8c0c8c8c8" }) ]) ] }

/-- A well-funded, fully-configured oracle: every read succeeds, the
destination router is registered, balances and allowance cover the
exercised amounts, and the receipt carries a matching mailbox log. -/
def happyEnv : Env :=
  { config := happyConfig,
    isAddress := fun s => strStartsWith s "0x" && s.length == 42,
    walletAddress := fun pk =>
      if strStartsWith pk "0x" && pk.length == 66 then
        Except.ok "0x1234567890123456789012345678901234567890"
      else Except.error "invalid private key",
    decimalsAt := fun _ _ => Except.ok 6,
    allowanceAt := fun _ _ _ _ => Except.ok 2000000,
    approveAt := fun _ _ _ => Except.ok "0xfeedapprovehash",
    routersAt := fun _ _ _ => Except.ok "0x1111111111111111111111111111111111111111",
    routerBalanceAt := fun _ _ _ => Except.ok 2000000,
    quoteGasAt := fun _ _ _ => Except.ok 1000,
    nativeBalanceAt := fun _ _ => Except.ok 5000,
    transferRemoteAt := fun _ _ _ _ _ =>
      Except.ok
        { transactionHash := "0xfeedtxhash",
          receipt :=
            { logs :=
                [ { address := "0xabcd000000000000000000000000000000000001",
                    topics := [ "0xtopiczero", "0xmessageid01" ] } ] } } }

/-- The receiving address used in the concrete runs. -/
def recvAddr : String := "0x384418C216ee5E46132CA1255f3B96759ce5fFD5"

/-- The sending address used in the concrete runs. -/
def senderAddr : String := "0x1234567890123456789012345678901234567890"

/-- A syntactically plausible private key accepted by `happyEnv`. -/
def demoKey : String := "0x0123456789abcdef0123456789abcdef0123456789abcdef0123456789abcdef"

/-- `happyEnv` with the USDC asset absent from the origin chain: the
on-chain oracles still answer every query, but the origin-side router
contract address cannot be resolved from the configuration. -/
def noOriginAssetEnv : Env :=
  { happyEnv with
    config :=
      { chains := happyConfig.chains,
        assets := [ ("USDC", [ ("pruvtest",
          { router_address := "0x2222222222222222222222222222222222222222",
            collateral_address := "0x3333333333333333333333333333333333333333" }) ]) ] } }

/-! Run lemmas for the effect monad. -/

@[simp] theorem M.run_pure {α : Type} (a : α) (env : Env) :
    (pure a : M α) env = (Except.ok a, []) := rfl

@[simp] theorem M.run_mpure {α : Type} (a : α) (env : Env) :
    (M.pure a : M α) env = (Except.ok a, []) := rfl

@[simp] theorem M.run_throw {α : Type} (msg : String) (env : Env) :
    (M.throw msg : M α) env = (Except.error msg, []) := rfl

@[simp] theorem M.run_liftE {α : Type} (x : Except String α) (env : Env) :
    (M.liftE x) env = (x, []) := rfl

@[simp] theorem M.run_cfg {α : Type} (f : Config → Except String α) (env : Env) :
    (M.cfg f) env = (f env.config, []) := rfl

@[simp] theorem M.run_isAddr (s : String) (env : Env) :
    (M.isAddr s) env = (Except.ok (env.isAddress s), []) := rfl

@[simp] theorem M.run_wallet (pk : String) (env : Env) :
    (M.wallet pk) env = (env.walletAddress pk, []) := rfl

@[simp] theorem M.run_oracle {α : Type} (ev : Event) (f : Env → Except String α) (env : Env) :
    (M.oracle ev f) env = (f env, [ev]) := rfl

theorem M.run_bind_ok {α β : Type} {x : M α} {env : Env} {a : α} {t : List Event}
    (f : α → M β) (h : x env = (Except.ok a, t)) :
    (x >>= f) env = ((f a env).1, t ++ (f a env).2) := by
  show M.bind x f env = _
  unfold M.bind
  rw [h]

theorem M.run_bind_error {α β : Type} {x : M α} {env : Env} {e : String} {t : List Event}
    (f : α → M β) (h : x env = (Except.error e, t)) :
    (x >>= f) env = (Except.error e, t) := by
  show M.bind x f env = _
  unfold M.bind
  rw [h]

theorem M.run_tryCatch_ok {α : Type} {x : M α} {env : Env} {a : α} {t : List Event}
    (hnd : String → M α) (h : x env = (Except.ok a, t)) :
    (M.tryCatch x hnd) env = (Except.ok a, t) := by
  unfold M.tryCatch
  rw [h]

theorem M.run_tryCatch_error {α : Type} {x : M α} {env : Env} {e : String} {t : List Event}
    (hnd : String → M α) (h : x env = (Except.error e, t)) :
    (M.tryCatch x hnd) env = ((hnd e env).1, t ++ (hnd e env).2) := by
  unfold M.tryCatch
  rw [h]

/-! Structural trace predicates: `M.EventsOk q x` saying every recorded
interaction of `x` satisfies `q`, with closure under the monad
combinators. -/

def M.EventsOk (q : Event → Bool) {α : Type} (x : M α) : Prop :=
  ∀ env : Env, ((x env).2.all q) = true

theorem M.eventsOk_bind {q : Event → Bool} {α β : Type} {x : M α} {f : α → M β}
    (hx : M.EventsOk q x) (hf : ∀ a, M.EventsOk q (f a)) : M.EventsOk q (x >>= f) := by
  intro env
  show ((M.bind x f env).2.all q) = true
  unfold M.bind
  have hxe := hx env
  cases hEq : x env with
  | mk r t =>
    rw [hEq] at hxe
    cases r with
    | error e => simpa using hxe
    | ok a =>
      have hfe := hf a env
      simp only [List.all_append, Bool.and_eq_true]
      exact ⟨by simpa using hxe, hfe⟩

theorem M.eventsOk_tryCatch {q : Event → Bool} {α : Type} {x : M α} {h : String → M α}
    (hx : M.EventsOk q x) (hh : ∀ e, M.EventsOk q (h e)) : M.EventsOk q (M.tryCatch x h) := by
  intro env
  show (((M.tryCatch x h) env).2.all q) = true
  unfold M.tryCatch
  have hxe := hx env
  cases hEq : x env with
  | mk r t =>
    rw [hEq] at hxe
    cases r with
    | ok a => simpa using hxe
    | error e =>
      have hhe := hh e env
      simp only [List.all_append, Bool.and_eq_true]
      exact ⟨by simpa using hxe, hhe⟩

theorem M.eventsOk_ite {q : Event → Bool} {α : Type} {c : Prop} [Decidable c] {x y : M α}
    (hx : M.EventsOk q x) (hy : M.EventsOk q y) : M.EventsOk q (if c then x else y) := by
  by_cases h : c
  · simpa [h] using hx
  · simpa [h] using hy

theorem M.eventsOk_pure {q : Event → Bool} {α : Type} (a : α) : M.EventsOk q (pure a : M α) :=
  fun _ => rfl

theorem M.eventsOk_mpure {q : Event → Bool} {α : Type} (a : α) : M.EventsOk q (M.pure a : M α) :=
  fun _ => rfl

theorem M.eventsOk_throw {q : Event → Bool} {α : Type} (msg : String) :
    M.EventsOk q (M.throw msg : M α) := fun _ => rfl

theorem M.eventsOk_liftE {q : Event → Bool} {α : Type} (x : Except String α) :
    M.EventsOk q (M.liftE x) := fun _ => rfl

theorem M.eventsOk_cfg {q : Event → Bool} {α : Type} (f : Config → Except String α) :
    M.EventsOk q (M.cfg f) := fun _ => rfl

theorem M.eventsOk_isAddr {q : Event → Bool} (s : String) : M.EventsOk q (M.isAddr s) :=
  fun _ => rfl

theorem M.eventsOk_wallet {q : Event → Bool} (pk : String) : M.EventsOk q (M.wallet pk) :=
  fun _ => rfl

theorem M.eventsOk_oracle {q : Event → Bool} {α : Type} {ev : Event}
    (f : Env → Except String α) (hq : q ev = true) : M.EventsOk q (M.oracle ev f) := by
  intro env
  simp [M.oracle, hq]

/-! Per-function trace characterisations: each embedded operation can
only record the interaction kinds of the contract calls it issues. -/

theorem eventsOk_callerGetDecimals (q : Event → Bool)
    (hqd : ∀ r a, q (Event.decimalsCall r a) = true) (rpc addr : String) :
    M.EventsOk q (ERC20Caller.getDecimals rpc addr) := by
  unfold ERC20Caller.getDecimals
  exact M.eventsOk_tryCatch (M.eventsOk_oracle _ (hqd rpc addr)) (fun _ => M.eventsOk_throw _)

theorem eventsOk_callerGetAllowance (q : Event → Bool)
    (hqa : ∀ r a o s, q (Event.allowanceCall r a o s) = true) (rpc addr owner spender : String) :
    M.EventsOk q (ERC20Caller.getAllowance rpc addr owner spender) := by
  unfold ERC20Caller.getAllowance
  exact M.eventsOk_tryCatch (M.eventsOk_oracle _ (hqa rpc addr owner spender))
    (fun _ => M.eventsOk_throw _)

theorem eventsOk_callerApprove (q : Event → Bool)
    (hqa : ∀ a s w, q (Event.approveTx a s w) = true) (addr spender : String) (w : Int) :
    M.EventsOk q (ERC20Caller.approve addr spender w) := by
  unfold ERC20Caller.approve
  exact M.eventsOk_tryCatch (M.eventsOk_oracle _ (hqa addr spender w))
    (fun _ => M.eventsOk_throw _)

theorem eventsOk_callerQuoteGas (q : Event → Bool)
    (hqq : ∀ r a d, q (Event.quoteGasCall r a d) = true) (rpc addr : String) (d : Int) :
    M.EventsOk q (TokenRouterCaller.quoteGasPayment rpc addr d) := by
  unfold TokenRouterCaller.quoteGasPayment
  exact M.eventsOk_tryCatch (M.eventsOk_oracle _ (hqq rpc addr d)) (fun _ => M.eventsOk_throw _)

theorem eventsOk_callerGetRouters (q : Event → Bool)
    (hqr : ∀ r a d, q (Event.routersCall r a d) = true) (rpc addr : String) (d : Int) :
    M.EventsOk q (TokenRouterCaller.getRouters rpc addr d) := by
  unfold TokenRouterCaller.getRouters
  exact M.eventsOk_tryCatch (M.eventsOk_oracle _ (hqr rpc addr d)) (fun _ => M.eventsOk_throw _)

theorem eventsOk_callerGetBalanceOf (q : Event → Bool)
    (hqb : ∀ r a c, q (Event.routerBalanceOfCall r a c) = true) (rpc addr account : String) :
    M.EventsOk q (TokenRouterCaller.getBalanceOf rpc addr account) := by
  unfold TokenRouterCaller.getBalanceOf
  exact M.eventsOk_tryCatch (M.eventsOk_oracle _ (hqb rpc addr account))
    (fun _ => M.eventsOk_throw _)

theorem eventsOk_callerTransferRemote (q : Event → Bool)
    (hqt : ∀ a d r w v, q (Event.transferRemoteTx a d r w v) = true)
    (addr : String) (d : Int) (recip : String) (w v : Int) :
    M.EventsOk q (TokenRouterCaller.transferRemote addr d recip w v) := by
  unfold TokenRouterCaller.transferRemote
  exact M.eventsOk_tryCatch (M.eventsOk_oracle _ (hqt addr d recip w v))
    (fun _ => M.eventsOk_throw _)

theorem eventsOk_svcGetDecimals (q : Event → Bool)
    (hqd : ∀ r a, q (Event.decimalsCall r a) = true) (tok chain : String) :
    M.EventsOk q (ERC20Service.getDecimals tok chain) := by
  unfold ERC20Service.getDecimals
  apply M.eventsOk_bind (M.eventsOk_cfg _)
  intro rpc
  apply M.eventsOk_bind (M.eventsOk_cfg _)
  intro addr
  exact M.eventsOk_tryCatch (eventsOk_callerGetDecimals q hqd rpc addr)
    (fun _ => M.eventsOk_throw _)

theorem eventsOk_convertAmount (q : Event → Bool)
    (hqd : ∀ r a, q (Event.decimalsCall r a) = true)
    (tok chain : String) (amount : StrOrInt) (iu ou : Unit) :
    M.EventsOk q (ERC20Service.convertAmount tok chain amount iu ou) := by
  unfold ERC20Service.convertAmount
  apply M.eventsOk_ite
  · apply M.eventsOk_ite
    · cases amount with
      | str s => exact M.eventsOk_bind (M.eventsOk_liftE _) (fun _ => M.eventsOk_mpure _)
      | int i => exact M.eventsOk_mpure _
    · exact M.eventsOk_mpure _
  · apply M.eventsOk_bind (eventsOk_svcGetDecimals q hqd tok chain)
    intro d
    apply M.eventsOk_ite
    · cases amount with
      | str s => exact M.eventsOk_bind (M.eventsOk_liftE _) (fun _ => M.eventsOk_mpure _)
      | int i => exact M.eventsOk_throw _
    · apply M.eventsOk_ite
      · cases amount with
        | str s => exact M.eventsOk_throw _
        | int i => exact M.eventsOk_mpure _
      · exact M.eventsOk_throw _

theorem eventsOk_svcGetAllowance (q : Event → Bool)
    (hqd : ∀ r a, q (Event.decimalsCall r a) = true)
    (hqa : ∀ r a o s, q (Event.allowanceCall r a o s) = true)
    (tok chain owner spender : String) (u : Unit) :
    M.EventsOk q (ERC20Service.getAllowance tok chain owner spender u) := by
  unfold ERC20Service.getAllowance
  apply M.eventsOk_bind (M.eventsOk_cfg _)
  intro rpc
  apply M.eventsOk_bind (M.eventsOk_cfg _)
  intro addr
  apply M.eventsOk_tryCatch
  · apply M.eventsOk_bind (eventsOk_callerGetAllowance q hqa rpc addr owner spender)
    intro allowance
    apply M.eventsOk_bind (eventsOk_convertAmount q hqd tok chain _ _ _)
    intro converted
    exact M.eventsOk_mpure _
  · exact fun _ => M.eventsOk_throw _

theorem eventsOk_svcApprove (q : Event → Bool)
    (hqd : ∀ r a, q (Event.decimalsCall r a) = true)
    (hqap : ∀ a s w, q (Event.approveTx a s w) = true)
    (tok chain spender amt : String) (u : Unit) (pk : String) :
    M.EventsOk q (ERC20Service.approve tok chain spender amt u pk) := by
  unfold ERC20Service.approve
  apply M.eventsOk_bind (M.eventsOk_cfg _)
  intro rpc
  apply M.eventsOk_bind (M.eventsOk_cfg _)
  intro addr
  apply M.eventsOk_tryCatch
  · apply M.eventsOk_bind (eventsOk_convertAmount q hqd tok chain _ _ _)
    intro converted
    apply M.eventsOk_bind
    · cases converted with
      | int i => exact M.eventsOk_mpure _
      | str s => exact M.eventsOk_throw _
    · intro finalAmount
      apply M.eventsOk_bind (M.eventsOk_wallet _)
      intro w
      exact eventsOk_callerApprove q hqap addr spender finalAmount
  · exact fun _ => M.eventsOk_throw _

theorem eventsOk_svcQuoteGas (q : Event → Bool)
    (hqq : ∀ r a d, q (Event.quoteGasCall r a d) = true)
    (tok src dst : String) :
    M.EventsOk q (TokenRouterService.quoteGasPayment tok src dst) := by
  unfold TokenRouterService.quoteGasPayment
  apply M.eventsOk_tryCatch
  · apply M.eventsOk_bind (M.eventsOk_cfg _)
    intro rpc
    apply M.eventsOk_bind (M.eventsOk_cfg _)
    intro addr
    apply M.eventsOk_bind (M.eventsOk_cfg _)
    intro d
    apply M.eventsOk_bind (eventsOk_callerQuoteGas q hqq rpc addr d)
    intro g
    exact M.eventsOk_mpure _
  · exact fun _ => M.eventsOk_throw _

theorem eventsOk_svcRouters (q : Event → Bool)
    (hqr : ∀ r a d, q (Event.routersCall r a d) = true)
    (tok chain : String) (domainId : Int) :
    M.EventsOk q (TokenRouterService.routers tok chain domainId) := by
  unfold TokenRouterService.routers
  apply M.eventsOk_tryCatch
  · apply M.eventsOk_bind (M.eventsOk_cfg _)
    intro rpc
    apply M.eventsOk_bind (M.eventsOk_cfg _)
    intro addr
    exact eventsOk_callerGetRouters q hqr rpc addr domainId
  · exact fun _ => M.eventsOk_throw _

theorem eventsOk_svcBalanceOf (q : Event → Bool)
    (hqb : ∀ r a c, q (Event.routerBalanceOfCall r a c) = true)
    (tok chain account : String) :
    M.EventsOk q (TokenRouterService.balanceOf tok chain account) := by
  unfold TokenRouterService.balanceOf
  apply M.eventsOk_tryCatch
  · apply M.eventsOk_bind (M.eventsOk_cfg _)
    intro rpc
    apply M.eventsOk_bind (M.eventsOk_cfg _)
    intro addr
    apply M.eventsOk_bind (eventsOk_callerGetBalanceOf q hqb rpc addr account)
    intro b
    exact M.eventsOk_mpure _
  · exact fun _ => M.eventsOk_throw _

theorem eventsOk_svcTransferRemote (q : Event → Bool)
    (hqt : ∀ a d r w v, q (Event.transferRemoteTx a d r w v) = true)
    (tok src dst recip : String) (w v : Int) (pk : String) :
    M.EventsOk q (TokenRouterService.transferRemote tok src dst recip w v pk) := by
  unfold TokenRouterService.transferRemote
  apply M.eventsOk_tryCatch
  · apply M.eventsOk_bind (M.eventsOk_cfg _)
    intro rpc
    apply M.eventsOk_bind (M.eventsOk_cfg _)
    intro addr
    apply M.eventsOk_bind (M.eventsOk_cfg _)
    intro d
    apply M.eventsOk_bind (M.eventsOk_wallet _)
    intro wa
    apply M.eventsOk_bind (eventsOk_callerTransferRemote q hqt addr d recip w v)
    intro result
    apply M.eventsOk_tryCatch
    · apply M.eventsOk_bind (M.eventsOk_cfg _)
      intro mb
      exact M.eventsOk_bind (M.eventsOk_liftE _) (fun _ => M.eventsOk_mpure _)
    · exact fun _ => M.eventsOk_mpure _
  · exact fun _ => M.eventsOk_throw _

theorem eventsOk_resolveSender (q : Event → Bool) (s : String) :
    M.EventsOk q (BridgeService.validateAndResolveSenderAddress s) := by
  unfold BridgeService.validateAndResolveSenderAddress
  apply M.eventsOk_bind (M.eventsOk_isAddr _)
  intro isA
  apply M.eventsOk_ite
  · exact M.eventsOk_mpure _
  · exact M.eventsOk_tryCatch (M.eventsOk_wallet _) (fun _ => M.eventsOk_throw _)

theorem eventsOk_convertTokenAmountToWei (q : Event → Bool)
    (hqd : ∀ r a, q (Event.decimalsCall r a) = true)
    (tok oc amt : String) (u : Unit) :
    M.EventsOk q (BridgeService.convertTokenAmountToWei tok oc amt u) := by
  unfold BridgeService.convertTokenAmountToWei
  apply M.eventsOk_ite
  · exact M.eventsOk_liftE _
  · exact M.eventsOk_bind (eventsOk_svcGetDecimals q hqd tok oc)
      (fun _ => M.eventsOk_liftE _)

theorem eventsOk_precheckBody (q : Event → Bool)
    (hqd : ∀ r a, q (Event.decimalsCall r a) = true)
    (hqr : ∀ r a d, q (Event.routersCall r a d) = true)
    (hqb : ∀ r a c, q (Event.routerBalanceOfCall r a c) = true)
    (hqq : ∀ r a d, q (Event.quoteGasCall r a d) = true)
    (hqn : ∀ r a, q (Event.nativeBalanceCall r a) = true)
    (tok oc dc recv amt : String) (u : Unit) (snd : String) :
    M.EventsOk q (BridgeService.precheckTransferTokenBody tok oc dc recv amt u snd) := by
  unfold BridgeService.precheckTransferTokenBody
  apply M.eventsOk_bind (M.eventsOk_liftE _)
  intro u1
  apply M.eventsOk_bind (M.eventsOk_liftE _)
  intro u2
  apply M.eventsOk_bind (M.eventsOk_ite (M.eventsOk_throw _) (M.eventsOk_mpure _))
  intro u3
  apply M.eventsOk_bind (M.eventsOk_isAddr _)
  intro recvOk
  apply M.eventsOk_bind (M.eventsOk_ite (M.eventsOk_throw _) (M.eventsOk_mpure _))
  intro u4
  apply M.eventsOk_bind (M.eventsOk_isAddr _)
  intro senderIsAddr
  apply M.eventsOk_bind
  · apply M.eventsOk_ite (M.eventsOk_mpure _)
    exact M.eventsOk_tryCatch (M.eventsOk_wallet _) (fun _ => M.eventsOk_throw _)
  intro senderAddress
  apply M.eventsOk_bind (M.eventsOk_cfg _)
  intro destinationDomainId
  apply M.eventsOk_bind (eventsOk_svcRouters q hqr tok oc destinationDomainId)
  intro router
  apply M.eventsOk_bind (M.eventsOk_ite (M.eventsOk_throw _) (M.eventsOk_mpure _))
  intro u5
  apply M.eventsOk_bind (eventsOk_svcBalanceOf q hqb tok oc senderAddress)
  intro bal
  apply M.eventsOk_bind (eventsOk_svcGetDecimals q hqd tok oc)
  intro decs
  apply M.eventsOk_bind (M.eventsOk_liftE _)
  intro amountInWei
  apply M.eventsOk_bind (M.eventsOk_liftE _)
  intro stb
  apply M.eventsOk_bind (M.eventsOk_ite (M.eventsOk_throw _) (M.eventsOk_mpure _))
  intro u6
  apply M.eventsOk_bind (eventsOk_svcQuoteGas q hqq tok oc dc)
  intro fee
  apply M.eventsOk_bind (M.eventsOk_cfg _)
  intro rpc
  apply M.eventsOk_bind (M.eventsOk_oracle _ (hqn rpc senderAddress))
  intro nb
  apply M.eventsOk_bind (M.eventsOk_liftE _)
  intro feeInt
  apply M.eventsOk_bind (M.eventsOk_ite (M.eventsOk_throw _) (M.eventsOk_mpure _))
  intro u7
  exact M.eventsOk_mpure _

theorem eventsOk_precheck (q : Event → Bool)
    (hqd : ∀ r a, q (Event.decimalsCall r a) = true)
    (hqr : ∀ r a d, q (Event.routersCall r a d) = true)
    (hqb : ∀ r a c, q (Event.routerBalanceOfCall r a c) = true)
    (hqq : ∀ r a d, q (Event.quoteGasCall r a d) = true)
    (hqn : ∀ r a, q (Event.nativeBalanceCall r a) = true)
    (tok oc dc recv amt : String) (u : Unit) (snd : String) :
    M.EventsOk q (BridgeService.precheckTransferToken tok oc dc recv amt u snd) := by
  unfold BridgeService.precheckTransferToken
  exact M.eventsOk_tryCatch
    (eventsOk_precheckBody q hqd hqr hqb hqq hqn tok oc dc recv amt u snd)
    (fun _ => M.eventsOk_throw _)

/-! `M.OkImp x p`: every successful result of `x` satisfies `p`. -/

def M.OkImp {α : Type} (x : M α) (p : α → Prop) : Prop :=
  ∀ env a t, x env = (Except.ok a, t) → p a

theorem M.okImp_bind {α β : Type} {x : M α} {f : α → M β} {p : β → Prop}
    (hf : ∀ a, M.OkImp (f a) p) : M.OkImp (x >>= f) p := by
  intro env b t h
  have hb : M.bind x f env = (Except.ok b, t) := h
  unfold M.bind at hb
  cases hEq : x env with
  | mk r t1 =>
    rw [hEq] at hb
    cases r with
    | error e => simp at hb
    | ok a =>
      have h1 : (f a env).1 = Except.ok b := by
        have := congrArg Prod.fst hb
        simpa using this
      exact hf a env b (f a env).2 (by rw [← h1])

theorem M.okImp_tryCatch {α : Type} {x : M α} {h : String → M α} {p : α → Prop}
    (hx : M.OkImp x p) (hh : ∀ e, M.OkImp (h e) p) : M.OkImp (M.tryCatch x h) p := by
  intro env a t hr
  have hb : M.tryCatch x h env = (Except.ok a, t) := hr
  unfold M.tryCatch at hb
  cases hEq : x env with
  | mk r t1 =>
    rw [hEq] at hb
    cases r with
    | ok a0 =>
      have h1 : a0 = a := by
        have := congrArg Prod.fst hb
        simpa using this
      exact h1 ▸ hx env a0 t1 hEq
    | error e =>
      have h1 : (h e env).1 = Except.ok a := by
        have := congrArg Prod.fst hb
        simpa using this
      exact hh e env a (h e env).2 (by rw [← h1])

theorem M.okImp_pure {α : Type} {p : α → Prop} {a : α} (h : p a) :
    M.OkImp (pure a : M α) p := by
  intro env b t hb
  have : a = b := by
    have := congrArg Prod.fst hb
    simpa [M.run_pure] using this
  exact this ▸ h

theorem M.okImp_mpure {α : Type} {p : α → Prop} {a : α} (h : p a) :
    M.OkImp (M.pure a : M α) p := M.okImp_pure h

theorem M.okImp_throw {α : Type} {p : α → Prop} (msg : String) :
    M.OkImp (M.throw msg : M α) p := by
  intro env b t hb
  have := congrArg Prod.fst hb
  simp [M.run_throw] at this

/-- Every successful pass of the precheck body yields `true`: the try
block has no other return statement. -/
theorem precheckBody_ok_imp_true (tok oc dc recv amt : String) (u : Unit) (snd : String) :
    M.OkImp (BridgeService.precheckTransferTokenBody tok oc dc recv amt u snd) (· = true) := by
  unfold BridgeService.precheckTransferTokenBody
  apply M.okImp_bind; intro u1
  apply M.okImp_bind; intro u2
  apply M.okImp_bind; intro u3
  apply M.okImp_bind; intro recvOk
  apply M.okImp_bind; intro u4
  apply M.okImp_bind; intro senderIsAddr
  apply M.okImp_bind; intro senderAddress
  apply M.okImp_bind; intro destinationDomainId
  apply M.okImp_bind; intro router
  apply M.okImp_bind; intro u5
  apply M.okImp_bind; intro bal
  apply M.okImp_bind; intro decs
  apply M.okImp_bind; intro amountInWei
  apply M.okImp_bind; intro stb
  apply M.okImp_bind; intro u6
  apply M.okImp_bind; intro fee
  apply M.okImp_bind; intro rpc
  apply M.okImp_bind; intro nb
  apply M.okImp_bind; intro feeInt
  apply M.okImp_bind; intro u7
  exact M.okImp_mpure rfl

/-- C3 — For every oracle environment and every input, the precheck has
exactly two outcomes: it returns `true`, or it throws an error whose
message is `"Transfer precheck failed: "` concatenated with the message
of the inner cause raised by the try block; there is no third outcome. -/
theorem precheck_error_wrapping (env : Env) (tok oc dc recv amt : String) (u : Unit)
    (snd : String) :
    (BridgeService.precheckTransferToken tok oc dc recv amt u snd env).1 = Except.ok true ∨
    ∃ e, (BridgeService.precheckTransferTokenBody tok oc dc recv amt u snd env).1 = Except.error e ∧
      (BridgeService.precheckTransferToken tok oc dc recv amt u snd env).1 =
        Except.error ("Transfer precheck failed: " ++ e) := by
  unfold BridgeService.precheckTransferToken
  cases hEq : BridgeService.precheckTransferTokenBody tok oc dc recv amt u snd env with
  | mk r t =>
    cases r with
    | ok a =>
      left
      have ha : a = true := precheckBody_ok_imp_true tok oc dc recv amt u snd env a t hEq
      rw [M.run_tryCatch_ok _ hEq, ha]
    | error e =>
      right
      refine ⟨e, rfl, ?_⟩
      rw [M.run_tryCatch_error _ hEq]
      rfl

/-- C8 — For every oracle environment and every input, the precheck
records no state-changing interaction (every recorded call is a
read-only view call or balance query), and whenever it succeeds its
result is `true`; in particular a passing precheck is safe to repeat. -/
theorem precheck_read_only (env : Env) (tok oc dc recv amt : String) (u : Unit)
    (snd : String) :
    writeFree ((BridgeService.precheckTransferToken tok oc dc recv amt u snd env).2) = true ∧
    (∀ b, (BridgeService.precheckTransferToken tok oc dc recv amt u snd env).1 = Except.ok b →
      b = true) := by
  constructor
  · exact eventsOk_precheck (fun ev => !ev.isWrite)
      (fun _ _ => rfl) (fun _ _ _ => rfl) (fun _ _ _ => rfl) (fun _ _ _ => rfl) (fun _ _ => rfl)
      tok oc dc recv amt u snd env
  · intro b hb
    have : M.OkImp (BridgeService.precheckTransferToken tok oc dc recv amt u snd) (· = true) := by
      unfold BridgeService.precheckTransferToken
      exact M.okImp_tryCatch (precheckBody_ok_imp_true tok oc dc recv amt u snd)
        (fun e => M.okImp_throw _)
    exact this env b
      ((BridgeService.precheckTransferToken tok oc dc recv amt u snd env).2)
      (by rw [← hb])

/-- Witness for C8: on the fully-configured funded oracle the precheck
passes with `true`, and its recorded trace is write-free. -/
theorem precheck_read_only_witness :
    writeFree ((BridgeService.precheckTransferToken "USDC" "sepolia" "pruvtest" recvAddr
      "1.0" Unit.ETH senderAddr happyEnv).2) = true ∧
    (BridgeService.precheckTransferToken "USDC" "sepolia" "pruvtest" recvAddr
      "1.0" Unit.ETH senderAddr happyEnv).1 = Except.ok true :=
  ⟨(precheck_read_only happyEnv "USDC" "sepolia" "pruvtest" recvAddr "1.0" Unit.ETH senderAddr).1,
    by decide⟩

/-- Rewriting `>>=` to the underlying `M.bind`. -/
theorem M.bind_def {α β : Type} (x : M α) (f : α → M β) : x >>= f = M.bind x f := rfl

/-- Rewriting `pure` to the underlying `M.pure`. -/
theorem M.pure_def {α : Type} (a : α) : (pure a : M α) = M.pure a := rfl

/-- The amount validator accepts exactly the strings whose `parseFloat`
value is strictly greater than zero under JS comparison. -/
theorem validatePositiveAmount_ok_iff (s : String) :
    BridgeService.validatePositiveAmount s = Except.ok PUnit.unit ↔
      JSNum.lt (JSNum.num 0) (parseFloat s) = true := by
  unfold BridgeService.validatePositiveAmount
  cases h : parseFloat s with
  | nan => simp [JSNum.isNaN, JSNum.lt, JSNum.le]
  | inf b => cases b <;> simp [JSNum.isNaN, JSNum.lt, JSNum.le]
  | num q =>
    by_cases hq : q ≤ 0
    · simp [JSNum.isNaN, JSNum.lt, JSNum.le, hq, not_lt.mpr hq]
    · simp [JSNum.isNaN, JSNum.lt, JSNum.le, hq, not_le.mp hq]

/-- The amount validator only ever throws its fixed message. -/
theorem validatePositiveAmount_error_msg (s m : String)
    (h : BridgeService.validatePositiveAmount s = Except.error m) :
    m = "Amount must be a positive number" := by
  unfold BridgeService.validatePositiveAmount at h
  by_cases hc : ((parseFloat s).isNaN || JSNum.le (parseFloat s) (JSNum.num 0)) = true
  · rw [if_pos hc] at h
    exact ((Except.error.injEq _ _).mp h).symm
  · rw [if_neg hc] at h
    exact absurd h (by simp)

/-- C4 (amended) — The amount-sanity step parses the amount with
`parseFloat` and fails, always with the message
`"Amount must be a positive number"`, unless the parsed value is
strictly positive; `"0"`, `"-1.0"` and non-numeric strings are all
rejected with that message, but the non-finite `"Infinity"` (whose
parsed value is strictly positive though not finite) is accepted. -/
theorem validatePositiveAmount_gate :
    (∀ s m, BridgeService.validatePositiveAmount s = Except.error m →
      m = "Amount must be a positive number") ∧
    (∀ s, BridgeService.validatePositiveAmount s = Except.ok PUnit.unit ↔
      JSNum.lt (JSNum.num 0) (parseFloat s) = true) ∧
    BridgeService.validatePositiveAmount "0" = Except.error "Amount must be a positive number" ∧
    BridgeService.validatePositiveAmount "-1.0" = Except.error "Amount must be a positive number" ∧
    BridgeService.validatePositiveAmount "invalid" = Except.error "Amount must be a positive number" ∧
    BridgeService.validatePositiveAmount "Infinity" = Except.ok PUnit.unit :=
  ⟨validatePositiveAmount_error_msg, validatePositiveAmount_ok_iff,
    by decide, by decide, by decide, by decide⟩

/-- Witness for C4: the theorem applied at concrete inputs. -/
theorem validatePositiveAmount_gate_witness :
    BridgeService.validatePositiveAmount "-1.0" = Except.error "Amount must be a positive number" ∧
    BridgeService.validatePositiveAmount "1.0" = Except.ok PUnit.unit :=
  ⟨validatePositiveAmount_gate.2.2.2.1,
    (validatePositiveAmount_gate.2.1 "1.0").mpr (by decide)⟩

/-- Counterexample for C4 as frozen: the claim demands rejection of
every amount whose parsed value is not finite, but `"Infinity"` parses
to a non-finite value and passes the amount-sanity step; the full
precheck then fails only later, at base-unit conversion, with a message
different from `"Amount must be a positive number"`. -/
theorem validatePositiveAmount_infinity_cex :
    (parseFloat "Infinity").isFinite = false ∧
    BridgeService.validatePositiveAmount "Infinity" = Except.ok PUnit.unit ∧
    (BridgeService.precheckTransferToken "USDC" "sepolia" "pruvtest" recvAddr
      "Infinity" Unit.ETH senderAddr happyEnv).1 =
      Except.error "Transfer precheck failed: invalid FixedNumber string value" := by
  refine ⟨by decide, by decide, by decide⟩

/-- C10 — The amount-sanity step accepts exactly the strings whose JS
`parseFloat` value is strictly positive: a positive decimal prefix with
non-numeric trailing characters (`"1.5abc"`) and the non-finite
`"Infinity"` both pass it, and both are rejected only later, at
base-unit conversion by `parseUnits`. -/
theorem validatePositiveAmount_parsefloat_characterization :
    (∀ s, BridgeService.validatePositiveAmount s = Except.ok PUnit.unit ↔
      JSNum.lt (JSNum.num 0) (parseFloat s) = true) ∧
    parseFloat "1.5abc" = JSNum.num (mkRat 3 2) ∧
    BridgeService.validatePositiveAmount "1.5abc" = Except.ok PUnit.unit ∧
    parseFloat "Infinity" = JSNum.inf false ∧
    BridgeService.validatePositiveAmount "Infinity" = Except.ok PUnit.unit ∧
    parseUnits "1.5abc" 6 = Except.error "invalid FixedNumber string value" ∧
    parseUnits "Infinity" 0 = Except.error "invalid FixedNumber string value" :=
  ⟨validatePositiveAmount_ok_iff, by decide, by decide, by decide, by decide,
    by decide, by decide⟩

/-- Witness for C10: the characterisation applied at a concrete string. -/
theorem validatePositiveAmount_parsefloat_characterization_witness :
    BridgeService.validatePositiveAmount "42" = Except.ok PUnit.unit :=
  (validatePositiveAmount_parsefloat_characterization.1 "42").mpr (by decide)

/-- C5 (amended) — Once the required-field check and the amount-sanity
check pass, equal origin and destination chains make the precheck fail
with `"Transfer precheck failed: Origin and destination chains must be
different"`, before any network interaction and regardless of the oracle
environment, the receiver address, or the sender credential. -/
theorem precheck_same_chain_after_basic_checks (env : Env)
    (tok oc dc recv amt : String) (u : Unit) (snd : String)
    (hreq : BridgeService.validateRequiredParameters
      (BridgeService.requiredParams tok oc dc recv snd amt) = Except.ok PUnit.unit)
    (hamt : BridgeService.validatePositiveAmount amt = Except.ok PUnit.unit)
    (heq : oc = dc) :
    BridgeService.precheckTransferToken tok oc dc recv amt u snd env =
      (Except.error "Transfer precheck failed: Origin and destination chains must be different",
        []) := by
  subst heq
  unfold BridgeService.precheckTransferToken BridgeService.precheckTransferTokenBody
  simp only [M.bind_def, M.bind, M.tryCatch, M.liftE, M.throw, hreq, hamt,
    beq_self_eq_true, if_true]
  rfl

/-- Witness for C5 (amended): equal chains with an invalid receiver and
an invalid sender credential still fail with the same-chain message. -/
theorem precheck_same_chain_witness :
    BridgeService.precheckTransferToken "USDC" "sepolia" "sepolia" "not-an-address"
      "1.0" Unit.ETH "not-a-key" happyEnv =
      (Except.error "Transfer precheck failed: Origin and destination chains must be different",
        []) :=
  precheck_same_chain_after_basic_checks happyEnv "USDC" "sepolia" "sepolia" "not-an-address"
    "1.0" Unit.ETH "not-a-key" (by decide) (by decide) rfl

/-- Counterexample for C5 as frozen: with equal chains but an empty
amount the precheck fails with the required-field message instead — the
same-chain message is not produced for every equal-chain request, only
for those passing the earlier steps. -/
theorem precheck_same_chain_cex :
    (BridgeService.precheckTransferToken "USDC" "sepolia" "sepolia" recvAddr ""
      Unit.ETH senderAddr happyEnv).1 =
      Except.error "Transfer precheck failed: amount is required and cannot be empty" ∧
    ¬ List.IsInfix "Origin and destination chains must be different".data
        "Transfer precheck failed: amount is required and cannot be empty".data := by
  refine ⟨by decide, by decide⟩

/-- Evaluation of `ERC20Service.getDecimals` when configuration resolves
and the on-chain read succeeds: one recorded `decimals()` call. -/
theorem svcGetDecimals_run_ok {env : Env} {tok chain rpc caddr : String} {d : Nat}
    (hrpc : ConfigUtil.getRpcUrl env.config chain = Except.ok rpc)
    (hcaddr : ConfigUtil.getCollateralAddress env.config tok chain = Except.ok caddr)
    (hd : env.decimalsAt rpc caddr = Except.ok d) :
    ERC20Service.getDecimals tok chain env =
      (Except.ok d, [ Event.decimalsCall rpc caddr ]) := by
  unfold ERC20Service.getDecimals ERC20Caller.getDecimals
  simp only [M.bind_def, M.bind, M.tryCatch, M.cfg, M.oracle, M.throw, hrpc, hcaddr, hd,
    List.nil_append, List.append_nil]

/-- Evaluation of `ERC20Service.getDecimals` when configuration resolves
but the on-chain read fails: the call is still recorded, and the message
is wrapped by both the caller and the service. -/
theorem svcGetDecimals_run_error {env : Env} {tok chain rpc caddr e : String}
    (hrpc : ConfigUtil.getRpcUrl env.config chain = Except.ok rpc)
    (hcaddr : ConfigUtil.getCollateralAddress env.config tok chain = Except.ok caddr)
    (hd : env.decimalsAt rpc caddr = Except.error e) :
    ERC20Service.getDecimals tok chain env =
      (Except.error ("Failed to get token decimals: " ++ ("Failed to get token decimals: " ++ e)),
        [ Event.decimalsCall rpc caddr ]) := by
  unfold ERC20Service.getDecimals ERC20Caller.getDecimals
  simp only [M.bind_def, M.bind, M.tryCatch, M.cfg, M.oracle, M.throw, hrpc, hcaddr, hd,
    List.nil_append, List.append_nil]

/-- C2 (amended) — The conditional decimals lookup described by the
claim holds of `convertTokenAmountToWei` (the conversion helper used by
`transferToken`): for base units (`WEI`) it performs no external
interaction at all and parses the amount with zero decimals, and for the
human-readable unit (`ETH`) its only interaction is the `decimals()`
fetch.  In `precheckTransferToken` of `BridgeService.ts`, by contrast,
the decimals are fetched unconditionally during the balance step (see
the counterexample). -/
theorem convertTokenAmountToWei_decimals_only_for_eth (env : Env) (tok oc amt : String) :
    BridgeService.convertTokenAmountToWei tok oc amt Unit.WEI env = (parseUnits amt 0, []) ∧
    (∀ rpc caddr, ConfigUtil.getRpcUrl env.config oc = Except.ok rpc →
      ConfigUtil.getCollateralAddress env.config tok oc = Except.ok caddr →
      (BridgeService.convertTokenAmountToWei tok oc amt Unit.ETH env).2 =
        [ Event.decimalsCall rpc caddr ]) := by
  constructor
  · rfl
  · intro rpc caddr hrpc hcaddr
    unfold BridgeService.convertTokenAmountToWei
    rw [if_neg (by decide)]
    cases hd : env.decimalsAt rpc caddr with
    | ok d =>
      rw [M.run_bind_ok _ (svcGetDecimals_run_ok hrpc hcaddr hd)]
      simp [M.liftE]
    | error e =>
      rw [M.run_bind_error _ (svcGetDecimals_run_error hrpc hcaddr hd)]

/-- Witness for C2 (amended): on the concrete oracle, the base-unit
conversion records no interaction while the human-readable conversion
records exactly the decimals fetch. -/
theorem convertTokenAmountToWei_decimals_only_for_eth_witness :
    BridgeService.convertTokenAmountToWei "USDC" "sepolia" "1000000" Unit.WEI happyEnv =
      (Except.ok 1000000, []) ∧
    (BridgeService.convertTokenAmountToWei "USDC" "sepolia" "1" Unit.ETH happyEnv).2 =
      [ Event.decimalsCall "https://rpc.sepolia.example"
          "0xA0b86a33E6441c8C06DD2b7c94b7E0e8c0c8c8c8" ] := by
  constructor
  · rw [(convertTokenAmountToWei_decimals_only_for_eth happyEnv "USDC" "sepolia" "1000000").1]
    decide
  · exact (convertTokenAmountToWei_decimals_only_for_eth happyEnv "USDC" "sepolia" "1").2
      "https://rpc.sepolia.example" "0xA0b86a33E6441c8C06DD2b7c94b7E0e8c0c8c8c8"
      (by decide) (by decide)

/-- Counterexample for C2 as frozen: a precheck run whose amount is
already in base units (`WEI`) still records exactly one `decimals()`
lookup — `precheckTransferToken` of `BridgeService.ts` fetches the
decimals unconditionally before dispatching on the unit. -/
theorem precheck_wei_fetches_decimals_cex :
    decimalsCount ((BridgeService.precheckTransferToken "USDC" "sepolia" "pruvtest" recvAddr
      "1000000" Unit.WEI senderAddr happyEnv).2) = 1 ∧
    (BridgeService.precheckTransferToken "USDC" "sepolia" "pruvtest" recvAddr
      "1000000" Unit.WEI senderAddr happyEnv).1 = Except.ok true := by
  refine ⟨by decide, by decide⟩

/-- C9 (amended) — Converting the human-readable amount `"1"` with
on-chain decimals 6 to base units yields `1000000`, and converting those
base units back yields the string `"1.0"` (not `"1"`): the formatting
keeps one fractional digit, but no precision is lost — re-parsing
`"1.0"` with the same decimals returns exactly `1000000`. -/
theorem convertAmount_roundtrip_formats :
    (ERC20Service.convertAmount "USDC" "sepolia" (StrOrInt.str "1") Unit.ETH Unit.WEI happyEnv).1 =
      Except.ok (StrOrInt.int 1000000) ∧
    (ERC20Service.convertAmount "USDC" "sepolia" (StrOrInt.int 1000000) Unit.WEI Unit.ETH happyEnv).1 =
      Except.ok (StrOrInt.str "1.0") ∧
    parseUnits "1.0" 6 = Except.ok 1000000 := by
  refine ⟨by decide, by decide, by decide⟩

/-- Counterexample for C9 as frozen: the round trip of `"1"` with
decimals 6 produces the string `"1.0"`, which is not the string `"1"`
claimed (the values agree; only the formatting differs). -/
theorem convertAmount_roundtrip_cex :
    (ERC20Service.convertAmount "USDC" "sepolia" (StrOrInt.str "1") Unit.ETH Unit.WEI happyEnv).1 =
      Except.ok (StrOrInt.int 1000000) ∧
    (ERC20Service.convertAmount "USDC" "sepolia" (StrOrInt.int 1000000) Unit.WEI Unit.ETH happyEnv).1 ≠
      Except.ok (StrOrInt.str "1") ∧
    formatUnits 1000000 6 = "1.0" := by
  refine ⟨by decide, by decide, by decide⟩

/-- C1 (amended) — When resolving the origin-chain router contract
address fails (e.g. the asset is not configured on the origin chain),
the failure propagates out of the destination-router check:
`TokenRouterService.routers` throws
`"Failed to get router address: " ++ <cause>` without reaching the
on-chain query, and the precheck fails with that message under the
uniform precheck prefix — origin-side asset/router misconfiguration IS
a precheck failure. -/
theorem precheck_origin_router_failure_propagates (env : Env)
    (tok oc dc recv amt : String) (u : Unit) (snd : String) (d : Int) (rpc m : String)
    (hreq : BridgeService.validateRequiredParameters
      (BridgeService.requiredParams tok oc dc recv snd amt) = Except.ok PUnit.unit)
    (hamt : BridgeService.validatePositiveAmount amt = Except.ok PUnit.unit)
    (hne : (oc == dc) = false)
    (hrecv : env.isAddress recv = true)
    (hrecv0x : strStartsWith recv "0x" = true)
    (hsnd : env.isAddress snd = true)
    (hdom : ConfigUtil.getDomainId env.config dc = Except.ok d)
    (hrpc : ConfigUtil.getRpcUrl env.config oc = Except.ok rpc)
    (hra : ConfigUtil.getRouterAddress env.config tok oc = Except.error m) :
    BridgeService.precheckTransferToken tok oc dc recv amt u snd env =
      (Except.error ("Transfer precheck failed: " ++ ("Failed to get router address: " ++ m)),
        []) := by
  unfold BridgeService.precheckTransferToken BridgeService.precheckTransferTokenBody
    TokenRouterService.routers TokenRouterCaller.getRouters
  simp only [M.bind_def, M.bind, M.tryCatch, M.liftE, M.cfg, M.isAddr, M.throw, M.pure_def,
    M.pure, M.oracle, hreq, hamt, hne, hrecv, hrecv0x, hsnd, hdom, hrpc, hra,
    Bool.not_true, Bool.or_self, Bool.false_or, Bool.or_false, if_false, if_true,
    Bool.false_eq_true, List.nil_append, List.append_nil]

/-- Witness for C1 (amended): the propagation theorem applied to the
environment whose asset table lacks the origin-chain entry. -/
theorem precheck_origin_router_failure_witness :
    BridgeService.precheckTransferToken "USDC" "sepolia" "pruvtest" recvAddr "1.0"
      Unit.ETH senderAddr noOriginAssetEnv =
      (Except.error ("Transfer precheck failed: " ++ ("Failed to get router address: " ++
        "Asset 'USDC' not available on chain 'sepolia'")), []) :=
  precheck_origin_router_failure_propagates noOriginAssetEnv "USDC" "sepolia" "pruvtest"
    recvAddr "1.0" Unit.ETH senderAddr 7336 "https://rpc.sepolia.example"
    "Asset 'USDC' not available on chain 'sepolia'"
    (by decide) (by decide) (by decide) (by decide) (by decide) (by decide)
    (by decide) (by decide) (by decide)

/-- Counterexample for C1 as frozen: with the asset unconfigured on the
origin chain but the on-chain `routers(domainId)` oracle answering every
query with a valid non-zero router address, the precheck does not
"proceed to completion and report success": it throws, reporting the
origin-side configuration failure. -/
theorem precheck_origin_router_failure_cex :
    ConfigUtil.getRouterAddress noOriginAssetEnv.config "USDC" "sepolia" =
      Except.error "Asset 'USDC' not available on chain 'sepolia'" ∧
    noOriginAssetEnv.routersAt "https://rpc.sepolia.example"
      "0xc97f971b0ddffC63e87365c2ce2F88107E79A167" 7336 =
      Except.ok "0x1111111111111111111111111111111111111111" ∧
    (BridgeService.precheckTransferToken "USDC" "sepolia" "pruvtest" recvAddr "1.0"
      Unit.ETH senderAddr noOriginAssetEnv).1 =
      Except.error "Transfer precheck failed: Failed to get router address: Asset 'USDC' not available on chain 'sepolia'" ∧
    (BridgeService.precheckTransferToken "USDC" "sepolia" "pruvtest" recvAddr "1.0"
      Unit.ETH senderAddr noOriginAssetEnv).1 ≠ Except.ok true := by
  refine ⟨by decide, by decide, by decide, by decide⟩

/-- Lower-casing a non-empty string is non-empty. -/
theorem toLowerStr_ne_empty {s : String} (h : s ≠ "") : toLowerStr s ≠ "" := by
  intro hc
  apply h
  unfold toLowerStr at hc
  have hdata : s.data.map Char.toLower = [] := congrArg String.data hc
  have hnil : s.data = [] := List.map_eq_nil_iff.mp hdata
  cases s with
  | mk data =>
    cases hnil
    rfl

/-- With a non-empty mailbox address, the truthiness guard of
`mailboxLogTest` is redundant: the predicate coincides with the
spec-side condition. -/
theorem mailboxLogTest_eq_spec {mb : String} (hmb : mb ≠ "") (log : Log) :
    TokenRouterService.mailboxLogTest mb log =
      (toLowerStr log.address == toLowerStr mb && log.topics.length == 2) := by
  unfold TokenRouterService.mailboxLogTest
  by_cases ha : log.address = ""
  · have h1 : (toLowerStr "" == toLowerStr mb) = false :=
      beq_eq_false_iff_ne.mpr (fun hcontra => toLowerStr_ne_empty hmb hcontra.symm)
    simp [ha, h1]
  · have h2 : (log.address != "") = true := bne_iff_ne.mpr ha
    simp [h2]

/-- The head of a filtered list is the first element satisfying the
predicate. -/
theorem filter_head_eq_find {α : Type} (p : α → Bool) (l : List α) :
    (l.filter p).head? = l.find? p := by
  induction l with
  | nil => rfl
  | cons a t ih =>
    cases hpa : p a <;> simp [List.filter_cons, List.find?_cons, hpa, ih]

/-- A successfully resolved mailbox address is non-empty (the falsy
entry is rejected by `getMailboxAddress`). -/
theorem getMailboxAddress_ok_ne_empty {cfg : Config} {ch mb : String}
    (h : ConfigUtil.getMailboxAddress cfg ch = Except.ok mb) : mb ≠ "" := by
  unfold ConfigUtil.getMailboxAddress at h
  split at h
  · exact absurd h (by simp)
  · split at h
    · exact absurd h (by simp)
    · exact absurd h (by simp)
    · rename_i chainInfo heq mailbox hne hmb2
      cases h
      intro hc
      cases hc
      exact hne rfl

/-- `getMessageId` in terms of the first matching log entry. -/
theorem getMessageId_eq {mb : String} (hmb : mb ≠ "") (receipt : Receipt) :
    TokenRouterService.getMessageId receipt mb =
      (match receipt.logs.find? (fun log =>
          toLowerStr log.address == toLowerStr mb && log.topics.length == 2) with
      | some log => Except.ok (log.topics.getD 1 "")
      | none => Except.error "Message ID not found in receipt. This indicates an invalid mailbox address in the configuration.") := by
  unfold TokenRouterService.getMessageId
  have hfilter : receipt.logs.filter (TokenRouterService.mailboxLogTest mb) =
      receipt.logs.filter (fun log =>
        toLowerStr log.address == toLowerStr mb && log.topics.length == 2) := by
    apply List.filter_congr
    intro log _
    exact mailboxLogTest_eq_spec hmb log
  rw [hfilter, filter_head_eq_find]
  cases receipt with
  | mk logs =>
    cases logs with
    | nil => rfl
    | cons a t => simp

/-- C7 — After a confirmed transfer, the message id returned is the
second topic of the first receipt log whose emitting address equals
(case-insensitively) the configured mailbox address and which carries
exactly two topics; if the mailbox address is not configured or no log
matches, the extraction failure is swallowed and `transferRemote` still
succeeds, returning the empty message id next to the transaction hash
(`messageIdSpec` collects exactly these cases). -/
theorem transferRemote_message_id_extraction (env : Env)
    (tok src dst recip : String) (w v : Int) (pk : String)
    (rpc ra waddr : String) (d : Int) (txr : TxResult)
    (hrpc : ConfigUtil.getRpcUrl env.config src = Except.ok rpc)
    (hra : ConfigUtil.getRouterAddress env.config tok src = Except.ok ra)
    (hd : ConfigUtil.getDomainId env.config dst = Except.ok d)
    (hw : env.walletAddress pk = Except.ok waddr)
    (htx : env.transferRemoteAt ra d recip w v = Except.ok txr) :
    TokenRouterService.transferRemote tok src dst recip w v pk env =
      (Except.ok (TransferOutcome.mk txr.transactionHash (messageIdSpec env.config src txr.receipt)),
        [ Event.transferRemoteTx ra d recip w v ]) := by
  unfold TokenRouterService.transferRemote TokenRouterCaller.transferRemote messageIdSpec
  cases hmb : ConfigUtil.getMailboxAddress env.config src with
  | error e =>
    simp only [M.bind_def, M.bind, M.tryCatch, M.cfg, M.liftE, M.throw, M.oracle, M.wallet,
      M.pure_def, M.pure, hrpc, hra, hd, hw, htx, hmb, List.nil_append, List.append_nil]
  | ok mb =>
    simp only [M.bind_def, M.bind, M.tryCatch, M.cfg, M.liftE, M.throw, M.oracle, M.wallet,
      M.pure_def, M.pure, hrpc, hra, hd, hw, htx, hmb, List.nil_append, List.append_nil]
    rw [getMessageId_eq (getMailboxAddress_ok_ne_empty hmb) txr.receipt]
    cases hf : txr.receipt.logs.find? (fun log =>
        toLowerStr log.address == toLowerStr mb && log.topics.length == 2) with
    | some log => simp [hf]
    | none => simp [hf]

/-- Witness for C7: on the concrete oracle, whose receipt carries one
log entry emitted by the configured mailbox (differing only in case)
with two topics, the returned message id is that log's second topic. -/
theorem transferRemote_message_id_extraction_witness :
    TokenRouterService.transferRemote "USDC" "sepolia" "pruvtest" "0xrecipient32"
      1000000 1000 demoKey happyEnv =
      (Except.ok (TransferOutcome.mk "0xfeedtxhash" "0xmessageid01"),
        [ Event.transferRemoteTx "0xc97f971b0ddffC63e87365c2ce2F88107E79A167" 7336
            "0xrecipient32" 1000000 1000 ]) := by
  rw [transferRemote_message_id_extraction happyEnv "USDC" "sepolia" "pruvtest" "0xrecipient32"
    1000000 1000 demoKey "https://rpc.sepolia.example"
    "0xc97f971b0ddffC63e87365c2ce2F88107E79A167" senderAddr 7336
    (TxResult.mk "0xfeedtxhash" (Receipt.mk
      [ Log.mk "0xabcd000000000000000000000000000000000001"
          [ "0xtopiczero", "0xmessageid01" ] ]))
    (by decide) (by decide) (by decide) (by decide) (by decide)]
  decide

/-- A trace all of whose events refute `p` counts zero events for `p`. -/
theorem countP_zero_of_all {t : List Event} {p : Event → Bool}
    (h : t.all (fun e => !p e) = true) : t.countP p = 0 := by
  apply List.countP_eq_zero.mpr
  intro a ha
  have := List.all_eq_true.mp h a ha
  simpa using this

/-- A successful `quoteGasPayment` records exactly one
`quoteGasPayment` view call. -/
theorem quoteGasPayment_ok_trace {env : Env} {tok src dst gq : String} {tq : List Event}
    (h : TokenRouterService.quoteGasPayment tok src dst env = (Except.ok gq, tq)) :
    quoteGasCount tq = 1 := by
  unfold TokenRouterService.quoteGasPayment TokenRouterCaller.quoteGasPayment at h
  simp only [M.bind_def, M.bind, M.tryCatch, M.cfg, M.oracle, M.liftE, M.throw,
    M.pure_def, M.pure, List.nil_append, List.append_nil] at h
  cases hrpc : ConfigUtil.getRpcUrl env.config src with
  | error e => simp [hrpc] at h
  | ok rpc =>
    simp only [hrpc] at h
    cases hra : ConfigUtil.getRouterAddress env.config tok src with
    | error e => simp [hra] at h
    | ok ra =>
      simp only [hra] at h
      cases hd : ConfigUtil.getDomainId env.config dst with
      | error e => simp [hd] at h
      | ok d =>
        simp only [hd] at h
        cases hg : env.quoteGasAt rpc ra d with
        | error e => simp [hg] at h
        | ok g =>
          simp only [hg] at h
          have ht := congrArg Prod.snd h
          simp only at ht
          rw [← ht]
          rfl

/-- A successful `ERC20Service.approve` submits exactly one `approve`
transaction, for exactly the base-unit conversion of the requested
amount, against the collateral token contract. -/
theorem svcApprove_ok_inv {env : Env} {tok chain spender amt : String} {u : Unit}
    {pk apHash : String} {tap : List Event}
    (h : ERC20Service.approve tok chain spender amt u pk env = (Except.ok apHash, tap)) :
    ∃ wa caddr tcv,
      ERC20Service.convertAmount tok chain (StrOrInt.str amt) u Unit.WEI env =
        (Except.ok (StrOrInt.int wa), tcv) ∧
      ConfigUtil.getCollateralAddress env.config tok chain = Except.ok caddr ∧
      tap = tcv ++ [ Event.approveTx caddr spender wa ] := by
  unfold ERC20Service.approve ERC20Service.StrOrIntAsInt ERC20Caller.approve at h
  simp only [M.bind_def, M.bind, M.tryCatch, M.cfg, M.oracle, M.liftE, M.throw,
    M.pure_def, M.pure, List.nil_append, List.append_nil] at h
  cases hrpc : ConfigUtil.getRpcUrl env.config chain with
  | error e => simp [hrpc] at h
  | ok rpc =>
    cases hcaddr : ConfigUtil.getCollateralAddress env.config tok chain with
    | error e => simp [hrpc, hcaddr] at h
    | ok caddr =>
      cases hconv : ERC20Service.convertAmount tok chain (StrOrInt.str amt) u Unit.WEI env with
      | mk r tcv =>
        cases r with
        | error e => simp [hrpc, hcaddr, hconv] at h
        | ok c =>
          cases c with
          | str sval => simp [hrpc, hcaddr, hconv, M.throw] at h
          | int ival =>
            cases hw : env.walletAddress pk with
            | error e => simp [hrpc, hcaddr, hconv, hw, M.wallet, M.pure] at h
            | ok waddr =>
              cases happ : env.approveAt caddr spender ival with
              | error e => simp [hrpc, hcaddr, hconv, hw, happ, M.wallet, M.pure] at h
              | ok hashv =>
                simp only [hrpc, hcaddr, hconv, hw, happ, M.wallet, M.pure,
                  List.nil_append, List.append_nil] at h
                have ht := congrArg Prod.snd h
                simp only at ht
                exact ⟨ival, caddr, tcv, rfl, rfl, ht.symm⟩

/-- Evaluation of the receiver-format validation when the address is
valid and `0x`-prefixed. -/
theorem validateReceiverAddress_run_ok {env : Env} {recv : String}
    (h1 : env.isAddress recv = true) (h2 : strStartsWith recv "0x" = true) :
    BridgeService.validateReceiverAddress recv env = (Except.ok PUnit.unit, []) := by
  unfold BridgeService.validateReceiverAddress
  simp [M.bind_def, M.bind, M.isAddr, M.throw, M.pure, h1, h2]

/-- C6 — During execution, the allowance gates the approval: when the
current allowance already covers the requested amount (compared with
`parseFloat` in the display unit the caller used) no `approve`
transaction is submitted at all; otherwise exactly one `approve` is
submitted — for exactly the base-unit conversion of the requested
amount, not an unlimited approval — and it completes before the
`transferRemote` transaction; `quoteGasPayment` is invoked exactly once
either way. -/
theorem transferToken_allowance_gate (env : Env)
    (tok oc dc recv amt : String) (u : Unit) (pk sender : String)
    (w : Int) (tc : List Event) (ra allowStr : String) (ta : List Event)
    (gq : String) (tq : List Event) (gqv : Int) (res : TransferOutcome) (tr : List Event)
    (h1 : BridgeService.validateInputParameters tok oc dc recv amt pk = Except.ok PUnit.unit)
    (h2 : env.isAddress recv = true) (h2x : strStartsWith recv "0x" = true)
    (h3 : BridgeService.validateAndResolveSenderAddress pk env = (Except.ok sender, []))
    (h4 : BridgeService.convertTokenAmountToWei tok oc amt u env = (Except.ok w, tc))
    (h5 : ConfigUtil.getRouterAddress env.config tok oc = Except.ok ra)
    (h6 : ERC20Service.getAllowance tok oc sender ra u env = (Except.ok allowStr, ta))
    (h7 : TokenRouterService.quoteGasPayment tok oc dc env = (Except.ok gq, tq))
    (h8 : jsBigInt gq = Except.ok gqv)
    (h9 : TokenRouterService.transferRemote tok oc dc (zeroPadValue recv 32) w gqv pk env =
      (Except.ok res, tr)) :
    (JSNum.le (parseFloat amt) (parseFloat allowStr) = true →
      BridgeService.transferToken tok oc dc recv amt u pk env =
        (Except.ok (TransferOutcome.mk res.transactionHash res.messageId),
          tc ++ (ta ++ (tq ++ tr))) ∧
      approveCount (tc ++ (ta ++ (tq ++ tr))) = 0 ∧
      quoteGasCount (tc ++ (ta ++ (tq ++ tr))) = 1) ∧
    (JSNum.le (parseFloat amt) (parseFloat allowStr) = false →
      ∀ apHash tap, ERC20Service.approve tok oc ra amt u pk env = (Except.ok apHash, tap) →
        BridgeService.transferToken tok oc dc recv amt u pk env =
          (Except.ok (TransferOutcome.mk res.transactionHash res.messageId),
            tc ++ (ta ++ (tap ++ (tq ++ tr)))) ∧
        (∃ wa caddr tcv,
          ERC20Service.convertAmount tok oc (StrOrInt.str amt) u Unit.WEI env =
            (Except.ok (StrOrInt.int wa), tcv) ∧
          ConfigUtil.getCollateralAddress env.config tok oc = Except.ok caddr ∧
          tap = tcv ++ [ Event.approveTx caddr ra wa ]) ∧
        quoteGasCount (tc ++ (ta ++ (tap ++ (tq ++ tr)))) = 1) := by
  have hcA : tc.all (fun e => !e.isApprove) = true := by
    have hh := eventsOk_convertTokenAmountToWei (fun e => !e.isApprove)
      (fun _ _ => rfl) tok oc amt u env
    rw [h4] at hh
    exact hh
  have hcQ : tc.all (fun e => !e.isQuoteGas) = true := by
    have hh := eventsOk_convertTokenAmountToWei (fun e => !e.isQuoteGas)
      (fun _ _ => rfl) tok oc amt u env
    rw [h4] at hh
    exact hh
  have haA : ta.all (fun e => !e.isApprove) = true := by
    have hh := eventsOk_svcGetAllowance (fun e => !e.isApprove)
      (fun _ _ => rfl) (fun _ _ _ _ => rfl) tok oc sender ra u env
    rw [h6] at hh
    exact hh
  have haQ : ta.all (fun e => !e.isQuoteGas) = true := by
    have hh := eventsOk_svcGetAllowance (fun e => !e.isQuoteGas)
      (fun _ _ => rfl) (fun _ _ _ _ => rfl) tok oc sender ra u env
    rw [h6] at hh
    exact hh
  have hqA : tq.all (fun e => !e.isApprove) = true := by
    have hh := eventsOk_svcQuoteGas (fun e => !e.isApprove)
      (fun _ _ _ => rfl) tok oc dc env
    rw [h7] at hh
    exact hh
  have hrA : tr.all (fun e => !e.isApprove) = true := by
    have hh := eventsOk_svcTransferRemote (fun e => !e.isApprove)
      (fun _ _ _ _ _ => rfl) tok oc dc (zeroPadValue recv 32) w gqv pk env
    rw [h9] at hh
    exact hh
  have hrQ : tr.all (fun e => !e.isQuoteGas) = true := by
    have hh := eventsOk_svcTransferRemote (fun e => !e.isQuoteGas)
      (fun _ _ _ _ _ => rfl) tok oc dc (zeroPadValue recv 32) w gqv pk env
    rw [h9] at hh
    exact hh
  have hq1 : quoteGasCount tq = 1 := quoteGasPayment_ok_trace h7
  constructor
  · intro hle
    refine ⟨?_, ?_, ?_⟩
    · unfold BridgeService.transferToken
      simp only [M.bind_def, M.bind, M.liftE, M.cfg, M.throw, M.pure_def, M.pure,
        validateReceiverAddress_run_ok h2 h2x, h1, h3, h4, h5, h6, h7, h8, h9, hle,
        if_true, List.nil_append, List.append_nil, List.append_assoc]
    · simp only [approveCount, List.countP_append]
      rw [countP_zero_of_all hcA, countP_zero_of_all haA,
        countP_zero_of_all hqA, countP_zero_of_all hrA]
    · simp only [quoteGasCount, List.countP_append] at hq1 ⊢
      rw [countP_zero_of_all hcQ, countP_zero_of_all haQ,
        countP_zero_of_all hrQ, hq1]
  · intro hle apHash tap happrove
    have hapQ : tap.all (fun e => !e.isQuoteGas) = true := by
      have hh := eventsOk_svcApprove (fun e => !e.isQuoteGas)
        (fun _ _ => rfl) (fun _ _ _ => rfl) tok oc ra amt u pk env
      rw [happrove] at hh
      exact hh
    refine ⟨?_, svcApprove_ok_inv happrove, ?_⟩
    · unfold BridgeService.transferToken
      simp only [M.bind_def, M.bind, M.liftE, M.cfg, M.throw, M.pure_def, M.pure,
        validateReceiverAddress_run_ok h2 h2x, h1, h3, h4, h5, h6, h7, h8, h9, hle,
        happrove, Bool.false_eq_true, if_false, List.nil_append, List.append_nil,
        List.append_assoc]
    · simp only [quoteGasCount, List.countP_append] at hq1 ⊢
      rw [countP_zero_of_all hcQ, countP_zero_of_all haQ,
        countP_zero_of_all hapQ, countP_zero_of_all hrQ, hq1]

/-- Witness for C6: on the concrete oracle the allowance (2.0 in
display units) covers the requested 1.0, so the recorded trace holds no
`approve` transaction and exactly one gas quote before the transfer. -/
theorem transferToken_allowance_gate_witness :
    BridgeService.transferToken "USDC" "sepolia" "pruvtest" recvAddr "1.0" Unit.ETH
      demoKey happyEnv =
      (Except.ok (TransferOutcome.mk "0xfeedtxhash" "0xmessageid01"),
        [ Event.decimalsCall "https://rpc.sepolia.example" "0xA0b86a33E6441c8C06DD2b7c94b7E0e8c0c8c8c8",
          Event.allowanceCall "https://rpc.sepolia.example" "0xA0b86a33E6441c8C06DD2b7c94b7E0e8c0c8c8c8" senderAddr "0xc97f971b0ddffC63e87365c2ce2F88107E79A167",
          Event.decimalsCall "https://rpc.sepolia.example" "0xA0b86a33E6441c8C06DD2b7c94b7E0e8c0c8c8c8",
          Event.quoteGasCall "https://rpc.sepolia.example" "0xc97f971b0ddffC63e87365c2ce2F88107E79A167" 7336,
          Event.transferRemoteTx "0xc97f971b0ddffC63e87365c2ce2F88107E79A167" 7336 "0x000000000000000000000000384418C216ee5E46132CA1255f3B96759ce5fFD5" 1000000 1000 ]) := by
  have h := (transferToken_allowance_gate happyEnv "USDC" "sepolia" "pruvtest" recvAddr "1.0"
      Unit.ETH demoKey senderAddr 1000000
      [ Event.decimalsCall "https://rpc.sepolia.example" "0xA0b86a33E6441c8C06DD2b7c94b7E0e8c0c8c8c8" ]
      "0xc97f971b0ddffC63e87365c2ce2F88107E79A167" "2.0"
      [ Event.allowanceCall "https://rpc.sepolia.example" "0xA0b86a33E6441c8C06DD2b7c94b7E0e8c0c8c8c8" senderAddr "0xc97f971b0ddffC63e87365c2ce2F88107E79A167",
        Event.decimalsCall "https://rpc.sepolia.example" "0xA0b86a33E6441c8C06DD2b7c94b7E0e8c0c8c8c8" ]
      "1000" [ Event.quoteGasCall "https://rpc.sepolia.example" "0xc97f971b0ddffC63e87365c2ce2F88107E79A167" 7336 ]
      1000 (TransferOutcome.mk "0xfeedtxhash" "0xmessageid01")
      [ Event.transferRemoteTx "0xc97f971b0ddffC63e87365c2ce2F88107E79A167" 7336 "0x000000000000000000000000384418C216ee5E46132CA1255f3B96759ce5fFD5" 1000000 1000 ]
      (by decide) (by decide) (by decide) (by decide) (by decide) (by decide)
      (by decide) (by decide) (by decide) (by decide)).1 (by decide)
  exact h.1

end Bridge
